import Mathlib

/-!
Verification development for the bytez API key scraper core.

Shallow embedding of src/core/scraper.py, src/core/database.py and
config/settings.py.  Externally-driven effects (the Playwright page, the
Tor control channel, the MongoDB store, wall-clock time, the random
source) are modelled as explicit oracles supplied to the functions;
everything else follows the Python source line by line.
-/

/-- Selector set from settings.SELECTORS in config/settings.py. -/
structure Selectors where
  email_field : String
  password_field : String
  signin_button : String
  select_button : String
  api_key_display : String
  radio_button : String
  checkbox : String
  continue_button_1 : String
  continue_button_2 : String

/-- Configuration surface of config/settings.py used by the core. -/
structure Settings where
  BASE_URL : String
  ELEMENT_TIMEOUT : Nat
  REDIRECT_TIMEOUT : Nat
  DIALOG_CLOSE_DELAY : Nat
  DELAY_BETWEEN_REQUESTS : Nat
  RATE_LIMIT_PAUSE_DURATION : Nat
  TOR_RENEWAL_WAIT : Nat
  USE_TOR : Bool
  EMAIL_USERNAME_MIN_LENGTH : Nat
  EMAIL_USERNAME_MAX_LENGTH : Nat
  PASSWORD_MIN_LENGTH : Nat
  PASSWORD_MAX_LENGTH : Nat
  PASSWORD_CHARACTERS : String
  selectors : Selectors

/-- AUTH_URL from config/settings.py, derived from BASE_URL. -/
def AUTH_URL (S : Settings) : String := S.BASE_URL ++ "/auth"

/-- API_URL from config/settings.py, derived from BASE_URL. -/
def API_URL (S : Settings) : String := S.BASE_URL ++ "/api"

/-- Concrete values of config/settings.py. -/
def defaultSettings : Settings :=
  { BASE_URL := "https://bytez.com"
    ELEMENT_TIMEOUT := 1000 * 60
    REDIRECT_TIMEOUT := 1000 * 15
    DIALOG_CLOSE_DELAY := 2
    DELAY_BETWEEN_REQUESTS := 5
    RATE_LIMIT_PAUSE_DURATION := 600
    TOR_RENEWAL_WAIT := 5
    USE_TOR := false
    EMAIL_USERNAME_MIN_LENGTH := 8
    EMAIL_USERNAME_MAX_LENGTH := 12
    PASSWORD_MIN_LENGTH := 12
    PASSWORD_MAX_LENGTH := 16
    PASSWORD_CHARACTERS := "abcdefghijklmnopqrstuvwxyzABCDEFGHIJKLMNOPQRSTUVWXYZ0123456789!@#$%^&*"
    selectors :=
      { email_field := "input[type=\x27email\x27]"
        password_field := "input[type=\x27password\x27]"
        signin_button := "body > div.MuiBox-root.mui-k008qs > div.MuiContainer-root > div > div.MuiStack-root > span > button"
        select_button := "body > div.MuiBox-root.mui-k008qs > div.MuiStack-root > div.MuiStack-root > div > div > div:nth-child(1) > span > button"
        api_key_display := "body > div.MuiBox-root.mui-k008qs > div.MuiStack-root > div.MuiStack-root > div.MuiContainer-root > div > div.MuiStack-root > div > div > div"
        radio_button := "body > div.MuiDialog-root.MuiModal-root > div.MuiDialog-container > div > div > div.MuiContainer-root > div > div.MuiStack-root > div:nth-child(1) > div > label:nth-child(1) > span.MuiButtonBase-root.MuiRadio-root > input"
        checkbox := "body > div.MuiDialog-root.MuiModal-root > div.MuiDialog-container > div > div > div.MuiContainer-root > div > div.MuiStack-root > div:nth-child(2) > div > label:nth-child(1) > span.MuiButtonBase-root.MuiCheckbox-root > input"
        continue_button_1 := "body > div.MuiDialog-root.MuiModal-root > div.MuiDialog-container > div > div > div.MuiContainer-root > div > button"
        continue_button_2 := "body > div.MuiDialog-root.MuiModal-root > div.MuiDialog-container > div > div > div.MuiContainer-root > div.MuiStack-root > button" } }

/-- Driver operations issued by create_account_and_get_key, in the order
they appear in src/core/scraper.py.  Each carries the arguments of the
corresponding Playwright call. -/
inductive Op where
  | goto (url : String)
  | waitSelector (sel : String) (timeoutMs : Nat)
  | fill (sel : String) (text : String)
  | click (sel : String)
  | waitUrl (url : String) (timeoutMs : Nat)
  | sleep (seconds : Nat)
deriving DecidableEq

/-- Exceptions of the embedded program.  pwTimeout and pwError are
Playwright failures and carry the operation (hence the selector or
address) they arose from, as the real exception messages do; typeError
is a bare Python TypeError; exception is a generic Exception with a
message; keyboardInterrupt is the external stop signal. -/
inductive PyErr where
  | pwTimeout (op : Op)
  | pwError (op : Op)
  | typeError
  | exception (msg : String)
  | keyboardInterrupt
deriving DecidableEq

/-- Which provisioning step an exception points at, if any: Playwright
failures name the operation (selector or address) they arose from; a
bare TypeError or generic Exception names nothing. -/
def PyErr.stateContext : PyErr → Option Op
  | PyErr.pwTimeout op => some op
  | PyErr.pwError op => some op
  | _ => none

/-- Wall-clock instant, the argument of datetime.now() formatting. -/
structure DT where
  year : Nat
  month : Nat
  day : Nat
  hour : Nat
  minute : Nat
  second : Nat

/-- Two-digit zero padding used by strftime numeric fields. -/
def pad2 (n : Nat) : String := if n < 10 then "0" ++ toString n else toString n

/-- Model of datetime.strftime with format string percent-Y-m-d H:M:S as
used for the scraped_at field (src/core/scraper.py line 198). -/
def strftime_ymd_hms (t : DT) : String :=
  toString t.year ++ "-" ++ pad2 t.month ++ "-" ++ pad2 t.day ++ " "
    ++ pad2 t.hour ++ ":" ++ pad2 t.minute ++ ":" ++ pad2 t.second

/-- Credential record returned by create_account_and_get_key
(src/core/scraper.py lines 194-199). -/
structure Account where
  email : String
  password : String
  api_key : String
  scraped_at : String
deriving DecidableEq

/-- Model of random.randint lo hi: the random source supplies r, the
result is some value in the inclusive range lo..hi. -/
def randint (lo hi r : Nat) : Nat := lo + r % (hi + 1 - lo)

/-- Model of random.choices population k with an injected random source:
k independent draws from the population. -/
def pyChoices (population : List Char) (k : Nat) (r : Nat → Nat) : List Char :=
  (List.range k).map (fun i => population.getD (r i % population.length) 'a')

/-- string.ascii_lowercase from the Python standard library. -/
def ascii_lowercase : String := "abcdefghijklmnopqrstuvwxyz"

/-- string.digits from the Python standard library. -/
def string_digits : String := "0123456789"

/-- BytezAPIKeyScraper.generate_random_email (src/core/scraper.py lines
69-74): a username of EMAIL_USERNAME_MIN_LENGTH..EMAIL_USERNAME_MAX_LENGTH
lowercase letters and digits, followed by the fixed domain. -/
def generate_random_email (S : Settings) (rLen : Nat) (rChars : Nat → Nat) : String :=
  let username_length := randint S.EMAIL_USERNAME_MIN_LENGTH S.EMAIL_USERNAME_MAX_LENGTH rLen
  let username := String.mk (pyChoices (ascii_lowercase ++ string_digits).data username_length rChars)
  username ++ "@gmail.com"

/-- BytezAPIKeyScraper.generate_random_password (src/core/scraper.py
lines 76-80): PASSWORD_MIN_LENGTH..PASSWORD_MAX_LENGTH characters drawn
from PASSWORD_CHARACTERS. -/
def generate_random_password (S : Settings) (rLen : Nat) (rChars : Nat → Nat) : String :=
  let length := randint S.PASSWORD_MIN_LENGTH S.PASSWORD_MAX_LENGTH rLen
  String.mk (pyChoices S.PASSWORD_CHARACTERS.data length rChars)

/-- Environment of one browser page: outcomes of the driver calls. exec
gives the outcome of the i-th driver operation issued on the page; urlAt
is the address trajectory observed while waiting for the post-auth
redirect; text is the outcome of the final text_content extraction. -/
structure Driver where
  exec : Nat → Op → Except PyErr Unit
  urlAt : Nat → String
  text : Except PyErr (Option String)

/-- Whether the trajectory hits the target address within the bound. -/
def hasUrlWithin (urlAt : Nat → String) (target : String) : Nat → Bool
  | 0 => urlAt 0 == target
  | t + 1 => (urlAt (t + 1) == target) || hasUrlWithin urlAt target t

/-- Model of page.wait_for_url target timeout (src/core/scraper.py line
124): returns only once the page address equals the target; if the
address never equals the target within the bound, raises a timeout
error. -/
def wait_for_url (urlAt : Nat → String) (target : String) (timeoutMs : Nat) : Except PyErr Unit :=
  if hasUrlWithin urlAt target timeoutMs then Except.ok ()
  else Except.error (PyErr.pwTimeout (Op.waitUrl target timeoutMs))

/-- Dispatch of one driver operation: the redirect wait is resolved
against the address trajectory, every other operation against the
per-call outcome oracle. -/
def Driver.run (d : Driver) (i : Nat) (op : Op) : Except PyErr Unit :=
  match op with
  | Op.waitUrl url tmo => wait_for_url d.urlAt url tmo
  | _ => d.exec i op

/-- The fixed ordered sequence of driver operations issued by
create_account_and_get_key (src/core/scraper.py lines 98-186), before
the final text_content extraction. -/
def stepOps (S : Settings) (email password : String) : List Op :=
  [Op.goto (AUTH_URL S),
   Op.waitSelector S.selectors.email_field S.ELEMENT_TIMEOUT,
   Op.fill S.selectors.email_field email,
   Op.fill S.selectors.password_field password,
   Op.click S.selectors.signin_button,
   Op.waitUrl (S.BASE_URL ++ "/") S.REDIRECT_TIMEOUT,
   Op.goto (API_URL S),
   Op.waitSelector S.selectors.select_button S.ELEMENT_TIMEOUT,
   Op.click S.selectors.select_button,
   Op.waitSelector S.selectors.radio_button S.ELEMENT_TIMEOUT,
   Op.click S.selectors.radio_button,
   Op.click S.selectors.checkbox,
   Op.click S.selectors.continue_button_1,
   Op.waitSelector S.selectors.continue_button_2 S.ELEMENT_TIMEOUT,
   Op.click S.selectors.continue_button_2,
   Op.sleep S.DIALOG_CLOSE_DELAY,
   Op.goto (API_URL S),
   Op.waitSelector S.selectors.api_key_display S.ELEMENT_TIMEOUT]

/-- Sequential execution of the operation list: issues each operation in
order, stops at the first raising operation; returns the list of
operations actually issued together with the first error, if any. -/
def runOpsTrace (d : Driver) : List Op → Nat → List Op × Option PyErr
  | [], _ => ([], none)
  | op :: rest, i =>
    match Driver.run d i op with
    | Except.ok _ =>
      let tail := runOpsTrace d rest (i + 1)
      (op :: tail.1, tail.2)
    | Except.error e => ([op], some e)

/-- BytezAPIKeyScraper.create_account_and_get_key (src/core/scraper.py
lines 82-199): generates credentials, drives the fixed step sequence,
extracts the key text, and returns the credential record.  Any raising
step propagates its error; extraction returning None raises a TypeError
at the api_key slicing on line 192 (None is not subscriptable). -/
def create_account_and_get_key (S : Settings) (d : Driver) (rEL : Nat) (rEC : Nat → Nat)
    (rPL : Nat) (rPC : Nat → Nat) (now : DT) : Except PyErr Account :=
  let email := generate_random_email S rEL rEC
  let password := generate_random_password S rPL rPC
  match (runOpsTrace d (stepOps S email password) 0).2 with
  | some e => Except.error e
  | none =>
    match d.text with
    | Except.error e => Except.error e
    | Except.ok none => Except.error PyErr.typeError
    | Except.ok (some api_key) =>
      Except.ok { email := email, password := password, api_key := api_key,
                  scraped_at := strftime_ymd_hms now }

/-- Document shape written by MongoDBManager.save_api_key
(src/core/database.py lines 125-136). -/
structure KeyDoc where
  scraper_id : Option Nat
  email : String
  password : String
  api_key : String
  in_use : Bool
  locked_at : Option Nat
  used_by : Option String
  models_expirations : List (String × Nat)
  created_at : DT
  updated_at : DT

/-- MongoDBManager.save_api_key (src/core/database.py lines 106-150):
builds the document with the write-once placeholder fields, inserts it,
returns true on an inserted id, and re-wraps any store failure or a
missing id as a raised Exception.  The insert oracle models the MongoDB
collection. -/
def MongoDBManager.save_api_key (insert : KeyDoc → Except PyErr (Option Nat))
    (account : Account) (scraper_id : Option Nat) (now : DT) : Except PyErr Bool :=
  let document : KeyDoc :=
    { scraper_id := scraper_id
      email := account.email
      password := account.password
      api_key := account.api_key
      in_use := false
      locked_at := none
      used_by := none
      models_expirations := []
      created_at := now
      updated_at := now }
  match insert document with
  | Except.error _ => Except.error (PyErr.exception "MongoDB operation failed")
  | Except.ok (some _) => Except.ok true
  | Except.ok none => Except.error (PyErr.exception "Failed to save API key to MongoDB")

/-- Number of required positional parameters of
MongoDBManager.save_api_key besides self (src/core/database.py line 106:
account and scraper_id, neither with a default). -/
def save_api_key_requiredPositional : Nat := 2

/-- Number of positional arguments the call site in
BytezAPIKeyScraper.save_api_key_to_db passes besides self
(src/core/scraper.py line 213: only account). -/
def save_api_key_to_db_argsProvided : Nat := 1

/-- BytezAPIKeyScraper.save_api_key_to_db (src/core/scraper.py lines
201-222).  The call on line 213 binds one positional argument against
two required parameters, so Python raises a TypeError before the method
body runs; the except block prints and re-raises.  The else branch is
the method body as it would bind, and is unreachable under this call
site (no scraper_id value exists there, rendered as none). -/
def save_api_key_to_db (db : KeyDoc → Except PyErr (Option Nat)) (account : Account)
    (now : DT) : Except PyErr Unit :=
  if save_api_key_to_db_argsProvided < save_api_key_requiredPositional then
    Except.error PyErr.typeError
  else
    match MongoDBManager.save_api_key db account none now with
    | Except.error e => Except.error e
    | Except.ok true => Except.ok ()
    | Except.ok false => Except.error (PyErr.exception "MongoDB save operation returned False")

/-- Observable recovery actions: a fixed settle sleep after a successful
identity rotation, or one one-second tick of the countdown pause. -/
inductive REv where
  | settle (seconds : Nat)
  | tick
deriving DecidableEq

/-- BytezAPIKeyScraper.display_countdown (src/core/scraper.py lines
224-241): one one-second sleep per remaining second.  stopTick models an
external stop signal delivered at that tick; the Boolean result records
whether the countdown was interrupted (the interrupt is re-raised). -/
def display_countdown : Nat → Option Nat → List REv × Bool
  | 0, _ => ([], false)
  | _ + 1, some 0 => ([], true)
  | s + 1, some (t + 1) =>
    let tail := display_countdown s (some t)
    (REv.tick :: tail.1, tail.2)
  | s + 1, none =>
    let tail := display_countdown s none
    (REv.tick :: tail.1, tail.2)

/-- BytezAPIKeyScraper.handle_error_recovery (src/core/scraper.py lines
243-262): with TOR enabled and a successful rotation, only the fixed
settle wait; otherwise the full countdown pause.  rotationOk is the
Boolean result of renew_tor_ip (lines 18-29). -/
def handle_error_recovery (S : Settings) (rotationOk : Bool) (stopTick : Option Nat) :
    List REv × Bool :=
  if S.USE_TOR then
    if rotationOk then ([REv.settle S.TOR_RENEWAL_WAIT], false)
    else display_countdown S.RATE_LIMIT_PAUSE_DURATION stopTick
  else display_countdown S.RATE_LIMIT_PAUSE_DURATION stopTick

/-- Observable events of one run of scrape_keys.  Indexed events carry
the attempt counter value.  acquire is browser.new_context, release is
context.close in the per-attempt finally, browserClose is the
browser-level teardown in the outer finally. -/
inductive Ev where
  | attemptStart (n : Nat)
  | acquire (n : Nat)
  | persistCall (n : Nat)
  | persistOk (n : Nat)
  | screenshot (n : Nat)
  | recovery (n : Nat)
  | settle (n : Nat) (seconds : Nat)
  | countdownTick (n : Nat)
  | release (n : Nat)
  | interSleep (n : Nat)
  | browserClose
deriving DecidableEq

/-- Tags a recovery action with the attempt it belongs to. -/
def tagR (n : Nat) : REv → Ev
  | REv.settle s => Ev.settle n s
  | REv.tick => Ev.countdownTick n

/-- Per-attempt environment: outcome of context.new_page, the page
driver, the random source draws, the clock, the renew_tor_ip outcome,
and an optional stop signal delivered during the recovery countdown. -/
structure AttemptEnv where
  newPage : Except PyErr Unit
  drv : Driver
  rEmailLen : Nat
  rEmailChars : Nat → Nat
  rPwdLen : Nat
  rPwdChars : Nat → Nat
  now : DT
  rotationOk : Bool
  stopTick : Option Nat

/-- Result of create_account_and_get_key under one attempt environment. -/
def machineResult (S : Settings) (env : AttemptEnv) : Except PyErr Account :=
  create_account_and_get_key S env.drv env.rEmailLen env.rEmailChars env.rPwdLen
    env.rPwdChars env.now

/-- How a whole run of scrape_keys ends: by the external stop signal, by
an exception escaping the loop, or because the observation window (the
fuel) ran out mid-loop. -/
inductive RunEnd where
  | stopped
  | raised (e : PyErr)
  | fuelOut
deriving DecidableEq

/-- The except-branch of the loop body (src/core/scraper.py lines
333-356): screenshot, then handle_error_recovery; if a stop signal
arrives mid-countdown it propagates, running the finally (context
close) and then the outer finally (browser close). -/
def errorBranch (S : Settings) (env : AttemptEnv) (n : Nat) (pre : List Ev) :
    List Ev × Option RunEnd :=
  let recv := handle_error_recovery S env.rotationOk env.stopTick
  let evs := pre ++ [Ev.screenshot n, Ev.recovery n] ++ recv.1.map (tagR n) ++ [Ev.release n]
  if recv.2 then (evs ++ [Ev.browserClose], some RunEnd.stopped)
  else (evs, none)

/-- One iteration of the scrape_keys while-loop (src/core/scraper.py
lines 304-365) at attempt counter n: fresh context, new page, the
provisioning machine, persistence on success, the except branch on any
Exception, context close in the finally on every path that entered the
try, and the inter-attempt sleep only when no error occurred.  A
KeyboardInterrupt is not an Exception: it propagates past the inner
except, through the finally, to the outer handler, ending the run. -/
def attemptStep (S : Settings) (db : KeyDoc → Except PyErr (Option Nat))
    (env : AttemptEnv) (n : Nat) : List Ev × Option RunEnd :=
  let head := [Ev.attemptStart n, Ev.acquire n]
  match env.newPage with
  | Except.error PyErr.keyboardInterrupt => (head ++ [Ev.browserClose], some RunEnd.stopped)
  | Except.error e => (head ++ [Ev.browserClose], some (RunEnd.raised e))
  | Except.ok _ =>
    match machineResult S env with
    | Except.error PyErr.keyboardInterrupt =>
      (head ++ [Ev.release n, Ev.browserClose], some RunEnd.stopped)
    | Except.error _ => errorBranch S env n head
    | Except.ok account =>
      match save_api_key_to_db db account env.now with
      | Except.ok _ => (head ++ [Ev.persistCall n, Ev.persistOk n, Ev.release n,
                                 Ev.interSleep n], none)
      | Except.error PyErr.keyboardInterrupt =>
        (head ++ [Ev.persistCall n, Ev.release n, Ev.browserClose], some RunEnd.stopped)
      | Except.error _ => errorBranch S env n (head ++ [Ev.persistCall n])

/-- The scrape_keys while-loop (src/core/scraper.py lines 302-370),
observed for at most fuel iterations; i is the attempt counter before
the next increment.  The real loop is unbounded; fuel only bounds the
observation window, and running out of fuel is recorded as fuelOut. -/
def runLoop (S : Settings) (db : KeyDoc → Except PyErr (Option Nat))
    (envs : Nat → AttemptEnv) : Nat → Nat → List Ev × RunEnd
  | 0, _ => ([], RunEnd.fuelOut)
  | fuel + 1, i =>
    let n := i + 1
    match attemptStep S db (envs n) n with
    | (evs, some r) => (evs, r)
    | (evs, none) =>
      let tail := runLoop S db envs fuel n
      (evs ++ tail.1, tail.2)

/-- BytezAPIKeyScraper.scrape_keys (src/core/scraper.py lines 264-374):
the attempt loop started at counter zero. -/
def scrape_keys (S : Settings) (db : KeyDoc → Except PyErr (Option Nat))
    (envs : Nat → AttemptEnv) (fuel : Nat) : List Ev × RunEnd :=
  runLoop S db envs fuel 0

/-- Occurrence count of an event in a trace. -/
def ecount (a : Ev) : List Ev → Nat
  | [] => 0
  | b :: l => (if b = a then 1 else 0) + ecount a l

theorem ecount_append (a : Ev) (l1 l2 : List Ev) :
    ecount a (l1 ++ l2) = ecount a l1 + ecount a l2 := by
  induction l1 with
  | nil => simp [ecount]
  | cons b t ih => simp [ecount, ih]; omega

theorem ecount_eq_zero (a : Ev) (l : List Ev) : ecount a l = 0 ↔ a ∉ l := by
  induction l with
  | nil => simp [ecount]
  | cons b t ih =>
    rcases eq_or_ne b a with h | h
    · subst h
      constructor
      · intro hc
        exfalso
        have hc2 : (if b = b then 1 else 0) + ecount b t = 0 := hc
        rw [if_pos rfl] at hc2
        omega
      · intro hc
        exact absurd (List.mem_cons_self b t) hc
    · have hab : ¬(a = b) := fun hc => h hc.symm
      simp only [ecount, if_neg h, Nat.zero_add, List.mem_cons, ih]
      constructor
      · intro hc hd
        rcases hd with hd | hd
        · exact hab hd
        · exact hc hd
      · intro hc hd
        exact hc (Or.inr hd)

/-- Attempt index carried by an event, if any. -/
def evAttempt : Ev → Option Nat
  | Ev.attemptStart n => some n
  | Ev.acquire n => some n
  | Ev.persistCall n => some n
  | Ev.persistOk n => some n
  | Ev.screenshot n => some n
  | Ev.recovery n => some n
  | Ev.settle n _ => some n
  | Ev.countdownTick n => some n
  | Ev.release n => some n
  | Ev.interSleep n => some n
  | Ev.browserClose => none

theorem tagR_attempt (n : Nat) (r : REv) : evAttempt (tagR n r) = some n := by
  cases r <;> rfl

theorem mem_map_tagR (n : Nat) (l : List REv) (e : Ev) (h : e ∈ l.map (tagR n)) :
    evAttempt e = some n := by
  rcases List.mem_map.mp h with ⟨r, _, rfl⟩
  exact tagR_attempt n r

theorem ecount_map_tagR (n : Nat) (l : List REv) (e : Ev)
    (h : ∀ r, tagR n r ≠ e) : ecount e (l.map (tagR n)) = 0 := by
  induction l with
  | nil => rfl
  | cons r t ih => simp [ecount, h r, ih]

theorem randint_bounds (lo hi r : Nat) (h : lo ≤ hi) :
    lo ≤ randint lo hi r ∧ randint lo hi r ≤ hi := by
  unfold randint
  have hpos : 0 < hi + 1 - lo := by omega
  have := Nat.mod_lt r hpos
  omega

theorem randint_hits (lo hi L : Nat) (h1 : lo ≤ L) (h2 : L ≤ hi) :
    randint lo hi (L - lo) = L := by
  unfold randint
  have hlt : L - lo < hi + 1 - lo := by omega
  rw [Nat.mod_eq_of_lt hlt]
  omega

theorem getD_mem_of_lt (l : List Char) (n : Nat) (d : Char) (h : n < l.length) :
    l.getD n d ∈ l := by
  induction l generalizing n with
  | nil => simp at h
  | cons a t ih =>
    cases n with
    | zero => simp [List.getD_cons_zero]
    | succ m =>
      rw [List.getD_cons_succ]
      exact List.mem_cons_of_mem _ (ih m (by simpa using h))

theorem pyChoices_length (pop : List Char) (k : Nat) (r : Nat → Nat) :
    (pyChoices pop k r).length = k := by
  simp [pyChoices]

theorem pyChoices_mem (pop : List Char) (k : Nat) (r : Nat → Nat) (hp : pop ≠ [])
    (c : Char) (hc : c ∈ pyChoices pop k r) : c ∈ pop := by
  unfold pyChoices at hc
  rcases List.mem_map.mp hc with ⟨i, _, rfl⟩
  exact getD_mem_of_lt _ _ _ (Nat.mod_lt _ (List.length_pos.mpr hp))

theorem display_countdown_none (s : Nat) :
    display_countdown s none = (List.replicate s REv.tick, false) := by
  induction s with
  | zero => rfl
  | succ m ih => simp [display_countdown, ih, List.replicate]

theorem display_countdown_stop (s t : Nat) (h : t < s) :
    display_countdown s (some t) = (List.replicate t REv.tick, true) := by
  induction t generalizing s with
  | zero =>
    cases s with
    | zero => omega
    | succ m => rfl
  | succ m ih =>
    cases s with
    | zero => omega
    | succ s2 => simp [display_countdown, ih s2 (by omega), List.replicate]

theorem handle_error_recovery_rotation (S : Settings) (stopTick : Option Nat)
    (h : S.USE_TOR = true) :
    handle_error_recovery S true stopTick = ([REv.settle S.TOR_RENEWAL_WAIT], false) := by
  simp [handle_error_recovery, h]

theorem handle_error_recovery_countdown (S : Settings) (rot : Bool) (stopTick : Option Nat)
    (h : S.USE_TOR = false ∨ rot = false) :
    handle_error_recovery S rot stopTick =
      display_countdown S.RATE_LIMIT_PAUSE_DURATION stopTick := by
  rcases h with h | h
  · simp [handle_error_recovery, h]
  · subst h; cases hU : S.USE_TOR <;> simp [handle_error_recovery, hU]

theorem hasUrlWithin_iff (u : Nat → String) (s : String) (n : Nat) :
    hasUrlWithin u s n = true ↔ ∃ t, t ≤ n ∧ u t = s := by
  induction n with
  | zero =>
    simp only [hasUrlWithin, beq_iff_eq]
    constructor
    · intro h; exact ⟨0, Nat.le_refl 0, h⟩
    · rintro ⟨t, ht, he⟩
      have : t = 0 := Nat.le_zero.mp ht
      subst this; exact he
  | succ m ih =>
    simp only [hasUrlWithin, Bool.or_eq_true, beq_iff_eq, ih]
    constructor
    · rintro (h | ⟨t, ht, he⟩)
      · exact ⟨m + 1, Nat.le_refl _, h⟩
      · exact ⟨t, Nat.le_succ_of_le ht, he⟩
    · rintro ⟨t, ht, he⟩
      rcases Nat.lt_or_ge t (m + 1) with hlt | hge
      · exact Or.inr ⟨t, Nat.lt_succ_iff.mp hlt, he⟩
      · have : t = m + 1 := by omega
        subst this; exact Or.inl he

theorem wait_for_url_ok (u : Nat → String) (s : String) (tmo : Nat)
    (h : wait_for_url u s tmo = Except.ok ()) : ∃ t, t ≤ tmo ∧ u t = s := by
  unfold wait_for_url at h
  split at h
  · exact (hasUrlWithin_iff u s tmo).mp (by assumption)
  · simp at h

theorem wait_for_url_timeout (u : Nat → String) (s : String) (tmo : Nat)
    (h : ∀ t, t ≤ tmo → u t ≠ s) :
    wait_for_url u s tmo = Except.error (PyErr.pwTimeout (Op.waitUrl s tmo)) := by
  have hb : hasUrlWithin u s tmo ≠ true := by
    intro hb
    rcases (hasUrlWithin_iff u s tmo).mp hb with ⟨t, ht, he⟩
    exact h t ht he
  simp [wait_for_url, hb]

theorem runOpsTrace_cons (d : Driver) (op : Op) (rest : List Op) (i : Nat) :
    runOpsTrace d (op :: rest) i =
      match Driver.run d i op with
      | Except.ok _ => ((op :: (runOpsTrace d rest (i + 1)).1), (runOpsTrace d rest (i + 1)).2)
      | Except.error e => ([op], some e) := by
  rfl

theorem runOpsTrace_cons_ok (d : Driver) (op : Op) (rest : List Op) (i : Nat)
    (h : Driver.run d i op = Except.ok ()) :
    runOpsTrace d (op :: rest) i =
      ((op :: (runOpsTrace d rest (i + 1)).1), (runOpsTrace d rest (i + 1)).2) := by
  rw [runOpsTrace_cons, h]

theorem runOpsTrace_cons_err (d : Driver) (op : Op) (rest : List Op) (i : Nat) (e : PyErr)
    (h : Driver.run d i op = Except.error e) :
    runOpsTrace d (op :: rest) i = ([op], some e) := by
  rw [runOpsTrace_cons, h]

theorem runOpsTrace_all_of_none (d : Driver) (ops : List Op) : ∀ (i : Nat),
    (runOpsTrace d ops i).2 = none →
    ∀ j (hj : j < ops.length), Driver.run d (i + j) (ops.get ⟨j, hj⟩) = Except.ok () := by
  induction ops with
  | nil => intro i _ j hj; simp at hj
  | cons op rest ih =>
    intro i hnone j hj
    cases hr : Driver.run d i op with
    | ok u =>
      cases u
      rw [runOpsTrace_cons_ok d op rest i hr] at hnone
      cases j with
      | zero => simpa using hr
      | succ m =>
        have hm : m < rest.length := by simpa using Nat.lt_of_succ_lt_succ hj
        have hidx : i + (m + 1) = (i + 1) + m := by omega
        rw [hidx]
        exact ih (i + 1) hnone m hm
    | error e =>
      rw [runOpsTrace_cons_err d op rest i e hr] at hnone
      simp at hnone

theorem runOpsTrace_firstErr (d : Driver) (ops : List Op) : ∀ (i k : Nat) (e : PyErr)
    (hk : k < ops.length),
    (∀ j (hj : j < k), Driver.run d (i + j) (ops.get ⟨j, Nat.lt_trans hj hk⟩) = Except.ok ()) →
    Driver.run d (i + k) (ops.get ⟨k, hk⟩) = Except.error e →
    runOpsTrace d ops i = (ops.take (k + 1), some e) := by
  induction ops with
  | nil => intro i k e hk; simp at hk
  | cons op rest ih =>
    intro i k e hk hb he
    cases k with
    | zero =>
      have he2 : Driver.run d i op = Except.error e := by simpa using he
      rw [runOpsTrace_cons_err d op rest i e he2]
      rfl
    | succ m =>
      have h0 : Driver.run d i op = Except.ok () := by
        have := hb 0 (Nat.succ_pos m)
        simpa using this
      have hm : m < rest.length := by simpa using Nat.lt_of_succ_lt_succ hk
      have hb2 : ∀ j (hj : j < m),
          Driver.run d ((i + 1) + j) (rest.get ⟨j, Nat.lt_trans hj hm⟩) = Except.ok () := by
        intro j hj
        have hidx : (i + 1) + j = i + (j + 1) := by omega
        rw [hidx]
        exact hb (j + 1) (Nat.succ_lt_succ hj)
      have he2 : Driver.run d ((i + 1) + m) (rest.get ⟨m, hm⟩) = Except.error e := by
        have hidx : (i + 1) + m = i + (m + 1) := by omega
        rw [hidx]
        exact he
      have hrec := ih (i + 1) m e hm hb2 he2
      rw [runOpsTrace_cons_ok d op rest i h0, hrec]
      rfl

theorem save_always (db : KeyDoc → Except PyErr (Option Nat)) (a : Account) (now : DT) :
    save_api_key_to_db db a now = Except.error PyErr.typeError := rfl

theorem errorBranch_eq (S : Settings) (env : AttemptEnv) (n : Nat) (pre : List Ev) :
    errorBranch S env n pre =
      (pre ++ [Ev.screenshot n, Ev.recovery n]
         ++ (handle_error_recovery S env.rotationOk env.stopTick).1.map (tagR n)
         ++ [Ev.release n]
         ++ (if (handle_error_recovery S env.rotationOk env.stopTick).2 then
               [Ev.browserClose] else []),
       if (handle_error_recovery S env.rotationOk env.stopTick).2 then
         some RunEnd.stopped else none) := by
  unfold errorBranch
  cases h : (handle_error_recovery S env.rotationOk env.stopTick).2 <;> simp [h]

theorem attemptStep_cases (S : Settings) (db : KeyDoc → Except PyErr (Option Nat))
    (env : AttemptEnv) (n : Nat) :
    (attemptStep S db env n
        = ([Ev.attemptStart n, Ev.acquire n, Ev.browserClose], some RunEnd.stopped)
      ∧ env.newPage = Except.error PyErr.keyboardInterrupt)
  ∨ (∃ e, attemptStep S db env n
        = ([Ev.attemptStart n, Ev.acquire n, Ev.browserClose], some (RunEnd.raised e))
      ∧ env.newPage = Except.error e)
  ∨ (attemptStep S db env n
        = ([Ev.attemptStart n, Ev.acquire n, Ev.release n, Ev.browserClose], some RunEnd.stopped)
      ∧ env.newPage = Except.ok ()
      ∧ machineResult S env = Except.error PyErr.keyboardInterrupt)
  ∨ (attemptStep S db env n = errorBranch S env n [Ev.attemptStart n, Ev.acquire n]
      ∧ env.newPage = Except.ok ()
      ∧ ∃ e, machineResult S env = Except.error e ∧ e ≠ PyErr.keyboardInterrupt)
  ∨ (attemptStep S db env n
        = errorBranch S env n [Ev.attemptStart n, Ev.acquire n, Ev.persistCall n]
      ∧ env.newPage = Except.ok ()
      ∧ ∃ a, machineResult S env = Except.ok a) := by
  cases hnp : env.newPage with
  | error e =>
    cases e with
    | keyboardInterrupt =>
      exact Or.inl ⟨by simp [attemptStep, hnp], rfl⟩
    | pwTimeout op =>
      exact Or.inr (Or.inl ⟨PyErr.pwTimeout op, by simp [attemptStep, hnp], rfl⟩)
    | pwError op =>
      exact Or.inr (Or.inl ⟨PyErr.pwError op, by simp [attemptStep, hnp], rfl⟩)
    | typeError =>
      exact Or.inr (Or.inl ⟨PyErr.typeError, by simp [attemptStep, hnp], rfl⟩)
    | exception m =>
      exact Or.inr (Or.inl ⟨PyErr.exception m, by simp [attemptStep, hnp], rfl⟩)
  | ok u =>
    cases u
    cases hm : machineResult S env with
    | ok a =>
      refine Or.inr (Or.inr (Or.inr (Or.inr ⟨?_, rfl, a, rfl⟩)))
      simp [attemptStep, hnp, hm, save_always]
    | error e =>
      cases e with
      | keyboardInterrupt =>
        refine Or.inr (Or.inr (Or.inl ⟨?_, rfl, rfl⟩))
        simp [attemptStep, hnp, hm]
      | pwTimeout op =>
        refine Or.inr (Or.inr (Or.inr (Or.inl ⟨?_, rfl, PyErr.pwTimeout op, rfl, by simp⟩)))
        simp [attemptStep, hnp, hm]
      | pwError op =>
        refine Or.inr (Or.inr (Or.inr (Or.inl ⟨?_, rfl, PyErr.pwError op, rfl, by simp⟩)))
        simp [attemptStep, hnp, hm]
      | typeError =>
        refine Or.inr (Or.inr (Or.inr (Or.inl ⟨?_, rfl, PyErr.typeError, rfl, by simp⟩)))
        simp [attemptStep, hnp, hm]
      | exception m =>
        refine Or.inr (Or.inr (Or.inr (Or.inl ⟨?_, rfl, PyErr.exception m, rfl, by simp⟩)))
        simp [attemptStep, hnp, hm]

theorem errorBranch_mem (S : Settings) (env : AttemptEnv) (n : Nat) (pre : List Ev)
    (e : Ev) (h : e ∈ (errorBranch S env n pre).1) :
    e ∈ pre ∨ evAttempt e = some n ∨ e = Ev.browserClose := by
  rw [errorBranch_eq] at h
  simp only [List.mem_append] at h
  rcases h with (((h | h) | h) | h) | h
  · exact Or.inl h
  · rcases List.mem_cons.mp h with h | h
    · subst h; exact Or.inr (Or.inl rfl)
    · rcases List.mem_cons.mp h with h | h
      · subst h; exact Or.inr (Or.inl rfl)
      · simp at h
  · exact Or.inr (Or.inl (mem_map_tagR n _ e h))
  · rcases List.mem_cons.mp h with h | h
    · subst h; exact Or.inr (Or.inl rfl)
    · simp at h
  · by_cases hc : (handle_error_recovery S env.rotationOk env.stopTick).2 = true
    · rw [if_pos hc] at h
      rcases List.mem_cons.mp h with h | h
      · subst h; exact Or.inr (Or.inr rfl)
      · simp at h
    · rw [if_neg hc] at h
      simp at h

theorem errorBranch_pre_mem (S : Settings) (env : AttemptEnv) (n : Nat) (pre : List Ev)
    (x : Ev) (hx : x ∈ pre) : x ∈ (errorBranch S env n pre).1 := by
  rw [errorBranch_eq]
  simp only [List.mem_append]
  exact Or.inl (Or.inl (Or.inl (Or.inl hx)))

theorem errorBranch_recovery_mem (S : Settings) (env : AttemptEnv) (n : Nat) (pre : List Ev) :
    Ev.recovery n ∈ (errorBranch S env n pre).1 := by
  rw [errorBranch_eq]
  simp

theorem errorBranch_release_mem (S : Settings) (env : AttemptEnv) (n : Nat) (pre : List Ev) :
    Ev.release n ∈ (errorBranch S env n pre).1 := by
  rw [errorBranch_eq]
  simp

theorem errorBranch_count (S : Settings) (env : AttemptEnv) (n : Nat) (pre : List Ev)
    (x : Ev) (h1 : ∀ r, tagR n r ≠ x) (h2 : Ev.screenshot n ≠ x) (h3 : Ev.recovery n ≠ x)
    (h4 : Ev.release n ≠ x) (h5 : Ev.browserClose ≠ x) :
    ecount x (errorBranch S env n pre).1 = ecount x pre := by
  have e2 : ecount x [Ev.screenshot n, Ev.recovery n] = 0 := by simp [ecount, h2, h3]
  have e4 : ecount x [Ev.release n] = 0 := by simp [ecount, h4]
  have e5 : ecount x (if (handle_error_recovery S env.rotationOk env.stopTick).2 then
      [Ev.browserClose] else []) = 0 := by
    split <;> simp [ecount, h5]
  rw [errorBranch_eq]
  simp only [ecount_append]
  rw [ecount_map_tagR n _ x h1, e2, e4, e5]
  try omega

theorem errorBranch_count_release (S : Settings) (env : AttemptEnv) (n : Nat) (pre : List Ev) :
    ecount (Ev.release n) (errorBranch S env n pre).1 = ecount (Ev.release n) pre + 1 := by
  have h1 : ∀ r, tagR n r ≠ Ev.release n := by intro r; cases r <;> simp [tagR]
  have e2 : ecount (Ev.release n) [Ev.screenshot n, Ev.recovery n] = 0 := by simp [ecount]
  have e4 : ecount (Ev.release n) [Ev.release n] = 1 := by simp [ecount]
  have e5 : ecount (Ev.release n) (if (handle_error_recovery S env.rotationOk env.stopTick).2 then
      [Ev.browserClose] else []) = 0 := by
    split <;> simp [ecount]
  rw [errorBranch_eq]
  simp only [ecount_append]
  rw [ecount_map_tagR n _ _ h1, e2, e4, e5]
  try omega

theorem errorBranch_stop (S : Settings) (env : AttemptEnv) (n : Nat) (pre : List Ev)
    (h : (handle_error_recovery S env.rotationOk env.stopTick).2 = true) :
    (errorBranch S env n pre).2 = some RunEnd.stopped := by
  rw [errorBranch_eq]
  simp [h]

theorem attemptStep_mem (S : Settings) (db : KeyDoc → Except PyErr (Option Nat))
    (env : AttemptEnv) (n : Nat) (e : Ev) (h : e ∈ (attemptStep S db env n).1) :
    evAttempt e = some n ∨ e = Ev.browserClose := by
  rcases attemptStep_cases S db env n with ⟨heq, _⟩ | ⟨e2, heq, _⟩ | ⟨heq, _⟩ | ⟨heq, _⟩ |
    ⟨heq, _⟩ <;> rw [heq] at h
  · simp only [List.mem_cons, List.not_mem_nil, or_false] at h
    rcases h with rfl | rfl | rfl
    · exact Or.inl rfl
    · exact Or.inl rfl
    · exact Or.inr rfl
  · simp only [List.mem_cons, List.not_mem_nil, or_false] at h
    rcases h with rfl | rfl | rfl
    · exact Or.inl rfl
    · exact Or.inl rfl
    · exact Or.inr rfl
  · simp only [List.mem_cons, List.not_mem_nil, or_false] at h
    rcases h with rfl | rfl | rfl | rfl
    · exact Or.inl rfl
    · exact Or.inl rfl
    · exact Or.inl rfl
    · exact Or.inr rfl
  · rcases errorBranch_mem S env n _ e h with hp | ha | hb
    · simp only [List.mem_cons, List.not_mem_nil, or_false] at hp
      rcases hp with rfl | rfl
      · exact Or.inl rfl
      · exact Or.inl rfl
    · exact Or.inl ha
    · exact Or.inr hb
  · rcases errorBranch_mem S env n _ e h with hp | ha | hb
    · simp only [List.mem_cons, List.not_mem_nil, or_false] at hp
      rcases hp with rfl | rfl | rfl
      · exact Or.inl rfl
      · exact Or.inl rfl
      · exact Or.inl rfl
    · exact Or.inl ha
    · exact Or.inr hb

theorem attemptStep_notmem (S : Settings) (db : KeyDoc → Except PyErr (Option Nat))
    (env : AttemptEnv) (n : Nat) (e : Ev) (m : Nat) (hm : evAttempt e = some m)
    (hne : m ≠ n) : e ∉ (attemptStep S db env n).1 := by
  intro hmem
  rcases attemptStep_mem S db env n e hmem with ha | hb
  · rw [hm] at ha
    exact hne (Option.some.inj ha)
  · subst hb
    simp [evAttempt] at hm

theorem attemptStep_start_mem (S : Settings) (db : KeyDoc → Except PyErr (Option Nat))
    (env : AttemptEnv) (n : Nat) : Ev.attemptStart n ∈ (attemptStep S db env n).1 := by
  rcases attemptStep_cases S db env n with ⟨heq, _⟩ | ⟨e2, heq, _⟩ | ⟨heq, _⟩ | ⟨heq, _⟩ |
    ⟨heq, _⟩ <;> rw [heq]
  · simp
  · simp
  · simp
  · exact errorBranch_pre_mem S env n _ _ (by simp)
  · exact errorBranch_pre_mem S env n _ _ (by simp)

theorem attemptStep_acquire_mem (S : Settings) (db : KeyDoc → Except PyErr (Option Nat))
    (env : AttemptEnv) (n : Nat) : Ev.acquire n ∈ (attemptStep S db env n).1 := by
  rcases attemptStep_cases S db env n with ⟨heq, _⟩ | ⟨e2, heq, _⟩ | ⟨heq, _⟩ | ⟨heq, _⟩ |
    ⟨heq, _⟩ <;> rw [heq]
  · simp
  · simp
  · simp
  · exact errorBranch_pre_mem S env n _ _ (by simp)
  · exact errorBranch_pre_mem S env n _ _ (by simp)

theorem attemptStep_count_acquire (S : Settings) (db : KeyDoc → Except PyErr (Option Nat))
    (env : AttemptEnv) (n : Nat) :
    ecount (Ev.acquire n) (attemptStep S db env n).1 = 1 := by
  have htag : ∀ r, tagR n r ≠ Ev.acquire n := by intro r; cases r <;> simp [tagR]
  rcases attemptStep_cases S db env n with ⟨heq, _⟩ | ⟨e2, heq, _⟩ | ⟨heq, _⟩ | ⟨heq, _⟩ |
    ⟨heq, _⟩ <;> rw [heq]
  · simp [ecount]
  · simp [ecount]
  · simp [ecount]
  · rw [errorBranch_count S env n _ _ htag (by simp) (by simp) (by simp) (by simp)]
    simp [ecount]
  · rw [errorBranch_count S env n _ _ htag (by simp) (by simp) (by simp) (by simp)]
    simp [ecount]

theorem attemptStep_count_release_le (S : Settings) (db : KeyDoc → Except PyErr (Option Nat))
    (env : AttemptEnv) (n : Nat) :
    ecount (Ev.release n) (attemptStep S db env n).1 ≤ 1 := by
  rcases attemptStep_cases S db env n with ⟨heq, _⟩ | ⟨e2, heq, _⟩ | ⟨heq, _⟩ | ⟨heq, _⟩ |
    ⟨heq, _⟩ <;> rw [heq]
  · simp [ecount]
  · simp [ecount]
  · simp [ecount]
  · rw [errorBranch_count_release S env n _]
    simp [ecount]
  · rw [errorBranch_count_release S env n _]
    simp [ecount]

theorem attemptStep_rel_or_close (S : Settings) (db : KeyDoc → Except PyErr (Option Nat))
    (env : AttemptEnv) (n : Nat) :
    Ev.release n ∈ (attemptStep S db env n).1 ∨ Ev.browserClose ∈ (attemptStep S db env n).1 := by
  rcases attemptStep_cases S db env n with ⟨heq, _⟩ | ⟨e2, heq, _⟩ | ⟨heq, _⟩ | ⟨heq, _⟩ |
    ⟨heq, _⟩ <;> rw [heq]
  · exact Or.inr (by simp)
  · exact Or.inr (by simp)
  · exact Or.inl (by simp)
  · exact Or.inl (errorBranch_release_mem S env n _)
  · exact Or.inl (errorBranch_release_mem S env n _)

theorem attemptStep_no_persistOk (S : Settings) (db : KeyDoc → Except PyErr (Option Nat))
    (env : AttemptEnv) (n : Nat) (j : Nat) :
    Ev.persistOk j ∉ (attemptStep S db env n).1 := by
  have htag : ∀ r, tagR n r ≠ Ev.persistOk j := by intro r; cases r <;> simp [tagR]
  rw [← ecount_eq_zero]
  rcases attemptStep_cases S db env n with ⟨heq, _⟩ | ⟨e2, heq, _⟩ | ⟨heq, _⟩ | ⟨heq, _⟩ |
    ⟨heq, _⟩ <;> rw [heq]
  · simp [ecount]
  · simp [ecount]
  · simp [ecount]
  · rw [errorBranch_count S env n _ _ htag (by simp) (by simp) (by simp) (by simp)]
    simp [ecount]
  · rw [errorBranch_count S env n _ _ htag (by simp) (by simp) (by simp) (by simp)]
    simp [ecount]

theorem attemptStep_no_persistCall_of_err (S : Settings)
    (db : KeyDoc → Except PyErr (Option Nat)) (env : AttemptEnv) (n : Nat) (j : Nat)
    (e : PyErr) (hm : machineResult S env = Except.error e) :
    Ev.persistCall j ∉ (attemptStep S db env n).1 := by
  have htag : ∀ r, tagR n r ≠ Ev.persistCall j := by intro r; cases r <;> simp [tagR]
  rw [← ecount_eq_zero]
  rcases attemptStep_cases S db env n with ⟨heq, _⟩ | ⟨e2, heq, _⟩ | ⟨heq, _⟩ | ⟨heq, _⟩ |
    ⟨heq, _, a, hma⟩ <;> rw [heq]
  · simp [ecount]
  · simp [ecount]
  · simp [ecount]
  · rw [errorBranch_count S env n _ _ htag (by simp) (by simp) (by simp) (by simp)]
    simp [ecount]
  · rw [hm] at hma
    simp at hma

theorem attemptStep_ok_invoked (S : Settings) (db : KeyDoc → Except PyErr (Option Nat))
    (env : AttemptEnv) (n : Nat) (a : Account) (hnp : env.newPage = Except.ok ())
    (hm : machineResult S env = Except.ok a) :
    Ev.persistCall n ∈ (attemptStep S db env n).1 ∧
    Ev.recovery n ∈ (attemptStep S db env n).1 ∧
    Ev.release n ∈ (attemptStep S db env n).1 := by
  rcases attemptStep_cases S db env n with ⟨heq, hp⟩ | ⟨e2, heq, hp⟩ | ⟨heq, hp, hq⟩ |
    ⟨heq, hp, e3, hq, hkb⟩ | ⟨heq, hp, a2, hq⟩
  · rw [hnp] at hp; simp at hp
  · rw [hnp] at hp; simp at hp
  · rw [hm] at hq; simp at hq
  · rw [hm] at hq; simp at hq
  · rw [heq]
    exact ⟨errorBranch_pre_mem S env n _ _ (by simp),
      errorBranch_recovery_mem S env n _, errorBranch_release_mem S env n _⟩

theorem attemptStep_stop_mid_countdown (S : Settings)
    (db : KeyDoc → Except PyErr (Option Nat)) (env : AttemptEnv) (n : Nat) (t : Nat)
    (hnp : env.newPage = Except.ok ())
    (hkb : machineResult S env ≠ Except.error PyErr.keyboardInterrupt)
    (htor : S.USE_TOR = false ∨ env.rotationOk = false)
    (hst : env.stopTick = some t) (hlt : t < S.RATE_LIMIT_PAUSE_DURATION) :
    (attemptStep S db env n).2 = some RunEnd.stopped ∧
    ecount (Ev.release n) (attemptStep S db env n).1 = 1 ∧
    Ev.release n ∈ (attemptStep S db env n).1 := by
  have hstop : (handle_error_recovery S env.rotationOk env.stopTick).2 = true := by
    rw [handle_error_recovery_countdown S env.rotationOk env.stopTick htor, hst,
      display_countdown_stop _ t hlt]
  rcases attemptStep_cases S db env n with ⟨heq, hp⟩ | ⟨e2, heq, hp⟩ | ⟨heq, hp, hq⟩ |
    ⟨heq, hp, e3, hq, hkb2⟩ | ⟨heq, hp, a2, hq⟩
  · rw [hnp] at hp; simp at hp
  · rw [hnp] at hp; simp at hp
  · exact absurd hq hkb
  · rw [heq]
    refine ⟨errorBranch_stop S env n _ hstop, ?_, errorBranch_release_mem S env n _⟩
    rw [errorBranch_count_release S env n _]
    simp [ecount]
  · rw [heq]
    refine ⟨errorBranch_stop S env n _ hstop, ?_, errorBranch_release_mem S env n _⟩
    rw [errorBranch_count_release S env n _]
    simp [ecount]

theorem runLoop_succ (S : Settings) (db : KeyDoc → Except PyErr (Option Nat))
    (envs : Nat → AttemptEnv) (fuel i : Nat) :
    runLoop S db envs (fuel + 1) i =
      match attemptStep S db (envs (i + 1)) (i + 1) with
      | (evs, some r) => (evs, r)
      | (evs, none) =>
        (evs ++ (runLoop S db envs fuel (i + 1)).1, (runLoop S db envs fuel (i + 1)).2) := by
  rfl

theorem runLoop_mem (S : Settings) (db : KeyDoc → Except PyErr (Option Nat))
    (envs : Nat → AttemptEnv) : ∀ (fuel i : Nat) (e : Ev),
    e ∈ (runLoop S db envs fuel i).1 →
    e = Ev.browserClose ∨ ∃ m, i < m ∧ evAttempt e = some m := by
  intro fuel
  induction fuel with
  | zero => intro i e h; simp [runLoop] at h
  | succ f ih =>
    intro i e h
    rcases hA : attemptStep S db (envs (i + 1)) (i + 1) with ⟨evs, ores⟩
    have h1 : (attemptStep S db (envs (i + 1)) (i + 1)).1 = evs := by rw [hA]
    cases ores with
    | some r =>
      have hT : runLoop S db envs (f + 1) i = (evs, r) := by rw [runLoop_succ, hA]
      rw [hT] at h
      have h2 : e ∈ (attemptStep S db (envs (i + 1)) (i + 1)).1 := by rw [h1]; exact h
      rcases attemptStep_mem S db (envs (i + 1)) (i + 1) e h2 with ha | hb
      · exact Or.inr ⟨i + 1, Nat.lt_succ_self i, ha⟩
      · exact Or.inl hb
    | none =>
      have hT : runLoop S db envs (f + 1) i =
          (evs ++ (runLoop S db envs f (i + 1)).1, (runLoop S db envs f (i + 1)).2) := by
        rw [runLoop_succ, hA]
      rw [hT] at h
      rcases List.mem_append.mp h with hs | ht
      · have h2 : e ∈ (attemptStep S db (envs (i + 1)) (i + 1)).1 := by rw [h1]; exact hs
        rcases attemptStep_mem S db (envs (i + 1)) (i + 1) e h2 with ha | hb
        · exact Or.inr ⟨i + 1, Nat.lt_succ_self i, ha⟩
        · exact Or.inl hb
      · rcases ih (i + 1) e ht with hb | ⟨m, hm1, hm2⟩
        · exact Or.inl hb
        · exact Or.inr ⟨m, Nat.lt_of_succ_lt hm1, hm2⟩

theorem runLoop_no_persistOk (S : Settings) (db : KeyDoc → Except PyErr (Option Nat))
    (envs : Nat → AttemptEnv) : ∀ (fuel i j : Nat),
    Ev.persistOk j ∉ (runLoop S db envs fuel i).1 := by
  intro fuel
  induction fuel with
  | zero => intro i j h; simp [runLoop] at h
  | succ f ih =>
    intro i j h
    rcases hA : attemptStep S db (envs (i + 1)) (i + 1) with ⟨evs, ores⟩
    have h1 : (attemptStep S db (envs (i + 1)) (i + 1)).1 = evs := by rw [hA]
    cases ores with
    | some r =>
      have hT : runLoop S db envs (f + 1) i = (evs, r) := by rw [runLoop_succ, hA]
      rw [hT] at h
      exact attemptStep_no_persistOk S db (envs (i + 1)) (i + 1) j (by rw [h1]; exact h)
    | none =>
      have hT : runLoop S db envs (f + 1) i =
          (evs ++ (runLoop S db envs f (i + 1)).1, (runLoop S db envs f (i + 1)).2) := by
        rw [runLoop_succ, hA]
      rw [hT] at h
      rcases List.mem_append.mp h with hs | ht
      · exact attemptStep_no_persistOk S db (envs (i + 1)) (i + 1) j (by rw [h1]; exact hs)
      · exact ih (i + 1) j ht

theorem runLoop_notmem_low (S : Settings) (db : KeyDoc → Except PyErr (Option Nat))
    (envs : Nat → AttemptEnv) (fuel i : Nat) (e : Ev) (m : Nat)
    (hm : evAttempt e = some m) (hle : m ≤ i) : e ∉ (runLoop S db envs fuel i).1 := by
  intro h
  rcases runLoop_mem S db envs fuel i e h with hb | ⟨m2, hm1, hm2⟩
  · subst hb; simp [evAttempt] at hm
  · rw [hm] at hm2
    have : m = m2 := Option.some.inj hm2
    omega

theorem runLoop_count_acquire (S : Settings) (db : KeyDoc → Except PyErr (Option Nat))
    (envs : Nat → AttemptEnv) : ∀ (fuel i m : Nat),
    ecount (Ev.acquire m) (runLoop S db envs fuel i).1 ≤ 1 := by
  intro fuel
  induction fuel with
  | zero => intro i m; simp [runLoop, ecount]
  | succ f ih =>
    intro i m
    rcases hA : attemptStep S db (envs (i + 1)) (i + 1) with ⟨evs, ores⟩
    have h1 : (attemptStep S db (envs (i + 1)) (i + 1)).1 = evs := by rw [hA]
    have hseg : ecount (Ev.acquire m) evs ≤ 1 := by
      rcases eq_or_ne m (i + 1) with hmi | hmi
      · subst hmi
        rw [← h1]
        rw [attemptStep_count_acquire S db (envs (i + 1)) (i + 1)]
      · have : Ev.acquire m ∉ evs := by
          rw [← h1]
          exact attemptStep_notmem S db (envs (i + 1)) (i + 1) _ m rfl hmi
        rw [(ecount_eq_zero _ _).mpr this]
        omega
    cases ores with
    | some r =>
      have hT : runLoop S db envs (f + 1) i = (evs, r) := by rw [runLoop_succ, hA]
      rw [hT]
      exact hseg
    | none =>
      have hT : runLoop S db envs (f + 1) i =
          (evs ++ (runLoop S db envs f (i + 1)).1, (runLoop S db envs f (i + 1)).2) := by
        rw [runLoop_succ, hA]
      rw [hT]
      show ecount (Ev.acquire m) (evs ++ (runLoop S db envs f (i + 1)).1) ≤ 1
      rw [ecount_append]
      rcases eq_or_ne m (i + 1) with hmi | hmi
      · subst hmi
        have htail : Ev.acquire (i + 1) ∉ (runLoop S db envs f (i + 1)).1 :=
          runLoop_notmem_low S db envs f (i + 1) _ (i + 1) rfl (Nat.le_refl _)
        rw [(ecount_eq_zero _ _).mpr htail]
        omega
      · have hz : Ev.acquire m ∉ evs := by
          rw [← h1]
          exact attemptStep_notmem S db (envs (i + 1)) (i + 1) _ m rfl hmi
        rw [(ecount_eq_zero _ _).mpr hz]
        have := ih (i + 1) m
        omega

theorem runLoop_count_release (S : Settings) (db : KeyDoc → Except PyErr (Option Nat))
    (envs : Nat → AttemptEnv) : ∀ (fuel i m : Nat),
    ecount (Ev.release m) (runLoop S db envs fuel i).1 ≤ 1 := by
  intro fuel
  induction fuel with
  | zero => intro i m; simp [runLoop, ecount]
  | succ f ih =>
    intro i m
    rcases hA : attemptStep S db (envs (i + 1)) (i + 1) with ⟨evs, ores⟩
    have h1 : (attemptStep S db (envs (i + 1)) (i + 1)).1 = evs := by rw [hA]
    have hseg : ecount (Ev.release m) evs ≤ 1 := by
      rcases eq_or_ne m (i + 1) with hmi | hmi
      · subst hmi
        rw [← h1]
        exact attemptStep_count_release_le S db (envs (i + 1)) (i + 1)
      · have : Ev.release m ∉ evs := by
          rw [← h1]
          exact attemptStep_notmem S db (envs (i + 1)) (i + 1) _ m rfl hmi
        rw [(ecount_eq_zero _ _).mpr this]
        omega
    cases ores with
    | some r =>
      have hT : runLoop S db envs (f + 1) i = (evs, r) := by rw [runLoop_succ, hA]
      rw [hT]
      exact hseg
    | none =>
      have hT : runLoop S db envs (f + 1) i =
          (evs ++ (runLoop S db envs f (i + 1)).1, (runLoop S db envs f (i + 1)).2) := by
        rw [runLoop_succ, hA]
      rw [hT]
      show ecount (Ev.release m) (evs ++ (runLoop S db envs f (i + 1)).1) ≤ 1
      rw [ecount_append]
      rcases eq_or_ne m (i + 1) with hmi | hmi
      · subst hmi
        have htail : Ev.release (i + 1) ∉ (runLoop S db envs f (i + 1)).1 :=
          runLoop_notmem_low S db envs f (i + 1) _ (i + 1) rfl (Nat.le_refl _)
        rw [(ecount_eq_zero _ _).mpr htail]
        omega
      · have hz : Ev.release m ∉ evs := by
          rw [← h1]
          exact attemptStep_notmem S db (envs (i + 1)) (i + 1) _ m rfl hmi
        rw [(ecount_eq_zero _ _).mpr hz]
        have := ih (i + 1) m
        omega

theorem attemptStep_mem_idx (S : Settings) (db : KeyDoc → Except PyErr (Option Nat))
    (env : AttemptEnv) (n : Nat) (e : Ev) (m : Nat) (hm : evAttempt e = some m)
    (h : e ∈ (attemptStep S db env n).1) : m = n := by
  rcases attemptStep_mem S db env n e h with ha | hb
  · rw [hm] at ha
    exact Option.some.inj ha
  · subst hb
    simp [evAttempt] at hm

theorem runLoop_release_imp_acquire (S : Settings) (db : KeyDoc → Except PyErr (Option Nat))
    (envs : Nat → AttemptEnv) : ∀ (fuel i m : Nat),
    Ev.release m ∈ (runLoop S db envs fuel i).1 →
    Ev.acquire m ∈ (runLoop S db envs fuel i).1 := by
  intro fuel
  induction fuel with
  | zero => intro i m h; simp [runLoop] at h
  | succ f ih =>
    intro i m h
    rcases hA : attemptStep S db (envs (i + 1)) (i + 1) with ⟨evs, ores⟩
    have h1 : (attemptStep S db (envs (i + 1)) (i + 1)).1 = evs := by rw [hA]
    cases ores with
    | some r =>
      have hT : runLoop S db envs (f + 1) i = (evs, r) := by rw [runLoop_succ, hA]
      rw [hT] at h ⊢
      have hn : m = i + 1 :=
        attemptStep_mem_idx S db (envs (i + 1)) (i + 1) (Ev.release m) m rfl
          (by rw [h1]; exact h)
      subst hn
      show Ev.acquire (i + 1) ∈ evs
      rw [← h1]
      exact attemptStep_acquire_mem S db (envs (i + 1)) (i + 1)
    | none =>
      have hT : runLoop S db envs (f + 1) i =
          (evs ++ (runLoop S db envs f (i + 1)).1, (runLoop S db envs f (i + 1)).2) := by
        rw [runLoop_succ, hA]
      rw [hT] at h ⊢
      rcases List.mem_append.mp h with hs | ht
      · have hn : m = i + 1 :=
          attemptStep_mem_idx S db (envs (i + 1)) (i + 1) (Ev.release m) m rfl
            (by rw [h1]; exact hs)
        subst hn
        apply List.mem_append.mpr
        refine Or.inl ?_
        rw [← h1]
        exact attemptStep_acquire_mem S db (envs (i + 1)) (i + 1)
      · exact List.mem_append.mpr (Or.inr (ih (i + 1) m ht))

theorem runLoop_acquire_imp_start (S : Settings) (db : KeyDoc → Except PyErr (Option Nat))
    (envs : Nat → AttemptEnv) : ∀ (fuel i m : Nat),
    Ev.acquire m ∈ (runLoop S db envs fuel i).1 →
    Ev.attemptStart m ∈ (runLoop S db envs fuel i).1 := by
  intro fuel
  induction fuel with
  | zero => intro i m h; simp [runLoop] at h
  | succ f ih =>
    intro i m h
    rcases hA : attemptStep S db (envs (i + 1)) (i + 1) with ⟨evs, ores⟩
    have h1 : (attemptStep S db (envs (i + 1)) (i + 1)).1 = evs := by rw [hA]
    cases ores with
    | some r =>
      have hT : runLoop S db envs (f + 1) i = (evs, r) := by rw [runLoop_succ, hA]
      rw [hT] at h ⊢
      have hn : m = i + 1 :=
        attemptStep_mem_idx S db (envs (i + 1)) (i + 1) (Ev.acquire m) m rfl
          (by rw [h1]; exact h)
      subst hn
      show Ev.attemptStart (i + 1) ∈ evs
      rw [← h1]
      exact attemptStep_start_mem S db (envs (i + 1)) (i + 1)
    | none =>
      have hT : runLoop S db envs (f + 1) i =
          (evs ++ (runLoop S db envs f (i + 1)).1, (runLoop S db envs f (i + 1)).2) := by
        rw [runLoop_succ, hA]
      rw [hT] at h ⊢
      rcases List.mem_append.mp h with hs | ht
      · have hn : m = i + 1 :=
          attemptStep_mem_idx S db (envs (i + 1)) (i + 1) (Ev.acquire m) m rfl
            (by rw [h1]; exact hs)
        subst hn
        apply List.mem_append.mpr
        refine Or.inl ?_
        rw [← h1]
        exact attemptStep_start_mem S db (envs (i + 1)) (i + 1)
      · exact List.mem_append.mpr (Or.inr (ih (i + 1) m ht))

theorem runLoop_acquire_imp_rel_or_close (S : Settings)
    (db : KeyDoc → Except PyErr (Option Nat)) (envs : Nat → AttemptEnv) :
    ∀ (fuel i m : Nat),
    Ev.acquire m ∈ (runLoop S db envs fuel i).1 →
    Ev.release m ∈ (runLoop S db envs fuel i).1 ∨
      Ev.browserClose ∈ (runLoop S db envs fuel i).1 := by
  intro fuel
  induction fuel with
  | zero => intro i m h; simp [runLoop] at h
  | succ f ih =>
    intro i m h
    rcases hA : attemptStep S db (envs (i + 1)) (i + 1) with ⟨evs, ores⟩
    have h1 : (attemptStep S db (envs (i + 1)) (i + 1)).1 = evs := by rw [hA]
    cases ores with
    | some r =>
      have hT : runLoop S db envs (f + 1) i = (evs, r) := by rw [runLoop_succ, hA]
      rw [hT] at h ⊢
      have hn : m = i + 1 :=
        attemptStep_mem_idx S db (envs (i + 1)) (i + 1) (Ev.acquire m) m rfl
          (by rw [h1]; exact h)
      subst hn
      have := attemptStep_rel_or_close S db (envs (i + 1)) (i + 1)
      rw [h1] at this
      exact this
    | none =>
      have hT : runLoop S db envs (f + 1) i =
          (evs ++ (runLoop S db envs f (i + 1)).1, (runLoop S db envs f (i + 1)).2) := by
        rw [runLoop_succ, hA]
      rw [hT] at h ⊢
      rcases List.mem_append.mp h with hs | ht
      · have hn : m = i + 1 :=
          attemptStep_mem_idx S db (envs (i + 1)) (i + 1) (Ev.acquire m) m rfl
            (by rw [h1]; exact hs)
        subst hn
        have := attemptStep_rel_or_close S db (envs (i + 1)) (i + 1)
        rw [h1] at this
        rcases this with hr | hc
        · exact Or.inl (List.mem_append.mpr (Or.inl hr))
        · exact Or.inr (List.mem_append.mpr (Or.inl hc))
      · rcases ih (i + 1) m ht with hr | hc
        · exact Or.inl (List.mem_append.mpr (Or.inr hr))
        · exact Or.inr (List.mem_append.mpr (Or.inr hc))

theorem runLoop_no_persistCall_of_err (S : Settings)
    (db : KeyDoc → Except PyErr (Option Nat)) (envs : Nat → AttemptEnv) :
    ∀ (fuel i n : Nat) (e : PyErr),
    machineResult S (envs n) = Except.error e →
    Ev.persistCall n ∉ (runLoop S db envs fuel i).1 := by
  intro fuel
  induction fuel with
  | zero => intro i n e hm h; simp [runLoop] at h
  | succ f ih =>
    intro i n e hm h
    rcases hA : attemptStep S db (envs (i + 1)) (i + 1) with ⟨evs, ores⟩
    have h1 : (attemptStep S db (envs (i + 1)) (i + 1)).1 = evs := by rw [hA]
    cases ores with
    | some r =>
      have hT : runLoop S db envs (f + 1) i = (evs, r) := by rw [runLoop_succ, hA]
      rw [hT] at h
      have h2 : Ev.persistCall n ∈ (attemptStep S db (envs (i + 1)) (i + 1)).1 := by
        rw [h1]; exact h
      have hn : n = i + 1 :=
        attemptStep_mem_idx S db (envs (i + 1)) (i + 1) (Ev.persistCall n) n rfl h2
      subst hn
      exact attemptStep_no_persistCall_of_err S db (envs (i + 1)) (i + 1) (i + 1) e hm h2
    | none =>
      have hT : runLoop S db envs (f + 1) i =
          (evs ++ (runLoop S db envs f (i + 1)).1, (runLoop S db envs f (i + 1)).2) := by
        rw [runLoop_succ, hA]
      rw [hT] at h
      rcases List.mem_append.mp h with hs | ht
      · have h2 : Ev.persistCall n ∈ (attemptStep S db (envs (i + 1)) (i + 1)).1 := by
          rw [h1]; exact hs
        have hn : n = i + 1 :=
          attemptStep_mem_idx S db (envs (i + 1)) (i + 1) (Ev.persistCall n) n rfl h2
        subst hn
        exact attemptStep_no_persistCall_of_err S db (envs (i + 1)) (i + 1) (i + 1) e hm h2
      · exact ih (i + 1) n e hm ht

theorem runLoop_stop_mid (S : Settings) (db : KeyDoc → Except PyErr (Option Nat))
    (envs : Nat → AttemptEnv) : ∀ (fuel i n t : Nat),
    (envs n).newPage = Except.ok () →
    machineResult S (envs n) ≠ Except.error PyErr.keyboardInterrupt →
    (S.USE_TOR = false ∨ (envs n).rotationOk = false) →
    (envs n).stopTick = some t →
    t < S.RATE_LIMIT_PAUSE_DURATION →
    Ev.attemptStart n ∈ (runLoop S db envs fuel i).1 →
    (runLoop S db envs fuel i).2 = RunEnd.stopped ∧
    Ev.attemptStart (n + 1) ∉ (runLoop S db envs fuel i).1 ∧
    ecount (Ev.release n) (runLoop S db envs fuel i).1 = 1 := by
  intro fuel
  induction fuel with
  | zero => intro i n t _ _ _ _ _ hmem; simp [runLoop] at hmem
  | succ f ih =>
    intro i n t hnp hkb htor hst hlt hmem
    rcases hA : attemptStep S db (envs (i + 1)) (i + 1) with ⟨evs, ores⟩
    have h1 : (attemptStep S db (envs (i + 1)) (i + 1)).1 = evs := by rw [hA]
    have h2 : (attemptStep S db (envs (i + 1)) (i + 1)).2 = ores := by rw [hA]
    cases ores with
    | some r =>
      have hT : runLoop S db envs (f + 1) i = (evs, r) := by rw [runLoop_succ, hA]
      rw [hT] at hmem ⊢
      have hn : n = i + 1 :=
        attemptStep_mem_idx S db (envs (i + 1)) (i + 1) (Ev.attemptStart n) n rfl
          (by rw [h1]; exact hmem)
      subst hn
      have hseg := attemptStep_stop_mid_countdown S db (envs (i + 1)) (i + 1) t hnp hkb
        htor hst hlt
      rw [h2] at hseg
      have hr : r = RunEnd.stopped := Option.some.inj hseg.1
      refine ⟨hr, ?_, ?_⟩
      · rw [← h1]
        exact attemptStep_notmem S db (envs (i + 1)) (i + 1) (Ev.attemptStart (i + 1 + 1))
          (i + 1 + 1) rfl (by omega)
      · have := hseg.2.1
        rw [h1] at this
        exact this
    | none =>
      have hT : runLoop S db envs (f + 1) i =
          (evs ++ (runLoop S db envs f (i + 1)).1, (runLoop S db envs f (i + 1)).2) := by
        rw [runLoop_succ, hA]
      rw [hT] at hmem ⊢
      rcases List.mem_append.mp hmem with hs | ht2
      · exfalso
        have hn : n = i + 1 :=
          attemptStep_mem_idx S db (envs (i + 1)) (i + 1) (Ev.attemptStart n) n rfl
            (by rw [h1]; exact hs)
        subst hn
        have hseg := attemptStep_stop_mid_countdown S db (envs (i + 1)) (i + 1) t hnp hkb
          htor hst hlt
        rw [h2] at hseg
        exact absurd hseg.1 (by simp)
      · have hi : i + 1 < n := by
          rcases runLoop_mem S db envs f (i + 1) _ ht2 with hb | ⟨m, hm1, hm2⟩
          · exact absurd hb (by simp)
          · have hm3 : some n = some m := hm2
            have : n = m := Option.some.inj hm3
            omega
        have IH := ih (i + 1) n t hnp hkb htor hst hlt ht2
        refine ⟨IH.1, ?_, ?_⟩
        · intro hmm
          rcases List.mem_append.mp hmm with hx | hx
          · have : n + 1 = i + 1 :=
              attemptStep_mem_idx S db (envs (i + 1)) (i + 1) (Ev.attemptStart (n + 1))
                (n + 1) rfl (by rw [h1]; exact hx)
            omega
          · exact IH.2.1 hx
        · have hz : Ev.release n ∉ evs := by
            rw [← h1]
            exact attemptStep_notmem S db (envs (i + 1)) (i + 1) (Ev.release n) n rfl
              (by omega)
          show ecount (Ev.release n) (evs ++ (runLoop S db envs f (i + 1)).1) = 1
          rw [ecount_append, (ecount_eq_zero _ _).mpr hz, IH.2.2]

/-- The operation sequence of one provisioning attempt, with the
generated credentials filled in. -/
def machineOps (S : Settings) (rEL : Nat) (rEC : Nat → Nat) (rPL : Nat)
    (rPC : Nat → Nat) : List Op :=
  stepOps S (generate_random_email S rEL rEC) (generate_random_password S rPL rPC)

theorem create_eq (S : Settings) (d : Driver) (rEL : Nat) (rEC : Nat → Nat) (rPL : Nat)
    (rPC : Nat → Nat) (now : DT) :
    create_account_and_get_key S d rEL rEC rPL rPC now =
      match (runOpsTrace d (machineOps S rEL rEC rPL rPC) 0).2 with
      | some e => Except.error e
      | none =>
        match d.text with
        | Except.error e => Except.error e
        | Except.ok none => Except.error PyErr.typeError
        | Except.ok (some api_key) =>
          Except.ok { email := generate_random_email S rEL rEC,
                      password := generate_random_password S rPL rPC,
                      api_key := api_key, scraped_at := strftime_ymd_hms now } := by
  rfl

theorem create_ok_elim (S : Settings) (d : Driver) (rEL : Nat) (rEC : Nat → Nat)
    (rPL : Nat) (rPC : Nat → Nat) (now : DT) (acct : Account)
    (h : create_account_and_get_key S d rEL rEC rPL rPC now = Except.ok acct) :
    (runOpsTrace d (machineOps S rEL rEC rPL rPC) 0).2 = none ∧
    d.text = Except.ok (some acct.api_key) ∧
    acct = { email := generate_random_email S rEL rEC,
             password := generate_random_password S rPL rPC,
             api_key := acct.api_key, scraped_at := strftime_ymd_hms now } := by
  rw [create_eq] at h
  cases htr : (runOpsTrace d (machineOps S rEL rEC rPL rPC) 0).2 with
  | some e => rw [htr] at h; simp at h
  | none =>
    rw [htr] at h
    cases htx : d.text with
    | error e => rw [htx] at h; simp at h
    | ok o =>
      cases o with
      | none => rw [htx] at h; simp at h
      | some k =>
        rw [htx] at h
        injection h with h3
        subst h3
        exact ⟨rfl, rfl, rfl⟩

theorem create_err_of_step (S : Settings) (d : Driver) (rEL : Nat) (rEC : Nat → Nat)
    (rPL : Nat) (rPC : Nat → Nat) (now : DT) (k : Nat) (e : PyErr)
    (hk : k < (machineOps S rEL rEC rPL rPC).length)
    (hb : ∀ j (hj : j < k),
      Driver.run d j ((machineOps S rEL rEC rPL rPC).get ⟨j, Nat.lt_trans hj hk⟩)
        = Except.ok ())
    (he : Driver.run d k ((machineOps S rEL rEC rPL rPC).get ⟨k, hk⟩) = Except.error e) :
    create_account_and_get_key S d rEL rEC rPL rPC now = Except.error e ∧
    (runOpsTrace d (machineOps S rEL rEC rPL rPC) 0).1
      = (machineOps S rEL rEC rPL rPC).take (k + 1) := by
  have htr := runOpsTrace_firstErr d (machineOps S rEL rEC rPL rPC) 0 k e hk
    (by intro j hj; rw [Nat.zero_add]; exact hb j hj)
    (by rw [Nat.zero_add]; exact he)
  constructor
  · rw [create_eq, htr]
  · rw [htr]

/-- Whether the page driver raises only Playwright-shaped failures: a
timeout or driver error naming the operation it arose from.  This is
the shape of real Playwright exceptions, whose messages carry the
selector or address being waited on. -/
def DriverFaithful (d : Driver) : Prop :=
  ∀ i op e, d.exec i op = Except.error e →
    e = PyErr.pwTimeout op ∨ e = PyErr.pwError op

theorem run_err_context (d : Driver) (hf : DriverFaithful d) (k : Nat) (op : Op)
    (e : PyErr) (he : Driver.run d k op = Except.error e) :
    PyErr.stateContext e = some op := by
  cases op with
  | waitUrl url tmo =>
    have he2 : wait_for_url d.urlAt url tmo = Except.error e := he
    unfold wait_for_url at he2
    split at he2
    · simp at he2
    · injection he2 with h3
      subst h3
      rfl
  | goto url =>
    rcases hf k _ e he with h3 | h3 <;> subst h3 <;> rfl
  | waitSelector s tmo =>
    rcases hf k _ e he with h3 | h3 <;> subst h3 <;> rfl
  | fill s t2 =>
    rcases hf k _ e he with h3 | h3 <;> subst h3 <;> rfl
  | click s =>
    rcases hf k _ e he with h3 | h3 <;> subst h3 <;> rfl
  | sleep s =>
    rcases hf k _ e he with h3 | h3 <;> subst h3 <;> rfl

theorem string_mk_length (l : List Char) : (String.mk l).length = l.length := rfl

theorem generate_random_email_spec (S : Settings) (rLen : Nat) (rChars : Nat → Nat)
    (h : S.EMAIL_USERNAME_MIN_LENGTH ≤ S.EMAIL_USERNAME_MAX_LENGTH) :
    ∃ u : String,
      generate_random_email S rLen rChars = u ++ "@gmail.com" ∧
      S.EMAIL_USERNAME_MIN_LENGTH ≤ u.length ∧
      u.length ≤ S.EMAIL_USERNAME_MAX_LENGTH ∧
      ∀ c ∈ u.data, c ∈ (ascii_lowercase ++ string_digits).data := by
  refine ⟨String.mk (pyChoices (ascii_lowercase ++ string_digits).data
      (randint S.EMAIL_USERNAME_MIN_LENGTH S.EMAIL_USERNAME_MAX_LENGTH rLen) rChars),
    rfl, ?_, ?_, ?_⟩
  · rw [string_mk_length, pyChoices_length]
    exact (randint_bounds _ _ rLen h).1
  · rw [string_mk_length, pyChoices_length]
    exact (randint_bounds _ _ rLen h).2
  · intro c hc
    exact pyChoices_mem _ _ _ (by decide) c hc

theorem generate_random_password_spec (S : Settings) (rLen : Nat) (rChars : Nat → Nat)
    (h : S.PASSWORD_MIN_LENGTH ≤ S.PASSWORD_MAX_LENGTH) :
    S.PASSWORD_MIN_LENGTH ≤ (generate_random_password S rLen rChars).length ∧
    (generate_random_password S rLen rChars).length ≤ S.PASSWORD_MAX_LENGTH ∧
    (S.PASSWORD_CHARACTERS.data ≠ [] →
      ∀ c ∈ (generate_random_password S rLen rChars).data,
        c ∈ S.PASSWORD_CHARACTERS.data) := by
  refine ⟨?_, ?_, ?_⟩
  · rw [generate_random_password, string_mk_length, pyChoices_length]
    exact (randint_bounds _ _ rLen h).1
  · rw [generate_random_password, string_mk_length, pyChoices_length]
    exact (randint_bounds _ _ rLen h).2
  · intro hne c hc
    exact pyChoices_mem _ _ _ hne c hc

theorem strftime_ne_empty (t : DT) : strftime_ymd_hms t ≠ "" := by
  intro h
  have h2 := congrArg String.length h
  simp only [strftime_ymd_hms, String.length_append] at h2
  rw [show String.length "" = 0 from rfl] at h2
  rw [show String.length " " = 1 from rfl] at h2
  omega

theorem email_ne_empty (S : Settings) (rLen : Nat) (rChars : Nat → Nat) :
    generate_random_email S rLen rChars ≠ "" := by
  intro h
  have h2 := congrArg String.length h
  simp only [generate_random_email, String.length_append] at h2
  rw [show String.length "@gmail.com" = 10 from rfl] at h2
  rw [show String.length "" = 0 from rfl] at h2
  omega

theorem ne_empty_of_len (s : String) (h : 1 ≤ s.length) : s ≠ "" := by
  intro he
  rw [he] at h
  exact absurd h (by decide)

/-- Deterministic random source used for concrete evaluations. -/
def zeroOracle : Nat → Nat := fun _ => 0

/-- Fixed wall-clock instant used for concrete evaluations. -/
def dt0 : DT := { year := 2024, month := 1, day := 2, hour := 3, minute := 4, second := 5 }

/-- Address trajectory that sits on the post-auth landing address. -/
def okUrl : Nat → String := fun _ => "https://bytez.com/"

/-- Address trajectory that never reaches the landing address. -/
def badUrl : Nat → String := fun _ => "https://bytez.com/auth"

/-- Page whose driver calls all succeed and whose key extraction yields
a non-empty key. -/
def drvOk : Driver :=
  { exec := fun _ _ => Except.ok (), urlAt := okUrl, text := Except.ok (some "sk-test-key") }

/-- Page whose driver calls all succeed and whose key extraction yields
the empty string. -/
def drvEmptyKey : Driver :=
  { exec := fun _ _ => Except.ok (), urlAt := okUrl, text := Except.ok (some "") }

/-- Page whose driver calls all succeed and whose key extraction yields
absent (None) content. -/
def drvNoneKey : Driver :=
  { exec := fun _ _ => Except.ok (), urlAt := okUrl, text := Except.ok none }

/-- Page whose very first driver call times out. -/
def drvFail0 : Driver :=
  { exec := fun _ op => Except.error (PyErr.pwTimeout op), urlAt := okUrl,
    text := Except.ok (some "k") }

/-- Page whose second driver call (the wait for the email field) times
out and whose other calls succeed. -/
def drvFailAt1 : Driver :=
  { exec := fun i op => if i = 1 then Except.error (PyErr.pwTimeout op) else Except.ok (),
    urlAt := okUrl, text := Except.ok (some "k") }

/-- Store oracle that accepts every insert (never reached under the
arity bug). -/
def db0 : KeyDoc → Except PyErr (Option Nat) := fun _ => Except.ok (some 1)

/-- Attempt environment whose provisioning succeeds end to end. -/
def envOk : AttemptEnv :=
  { newPage := Except.ok (), drv := drvOk, rEmailLen := 0, rEmailChars := zeroOracle,
    rPwdLen := 0, rPwdChars := zeroOracle, now := dt0, rotationOk := true, stopTick := none }

/-- Run environments: every attempt succeeds end to end. -/
def envsOk : Nat → AttemptEnv := fun _ => envOk

/-- Settings with identity rotation enabled (USE_TOR true). -/
def S1 : Settings := { defaultSettings with USE_TOR := true }

/-- Attempt environment whose provisioning fails at the first step and
whose recovery countdown receives a stop signal at its third tick. -/
def envStop : AttemptEnv :=
  { newPage := Except.ok (), drv := drvFail0, rEmailLen := 0, rEmailChars := zeroOracle,
    rPwdLen := 0, rPwdChars := zeroOracle, now := dt0, rotationOk := true,
    stopTick := some 3 }

/-- Run environments for the stop-mid-countdown scenario. -/
def envsStop : Nat → AttemptEnv := fun _ => envStop

/-- C1: the claim says a raising persistence call terminates the run
loop with no recovery invocation and no attempt N+1.  The code instead
catches the exception in the blanket except-block of scrape_keys,
invokes the recovery policy and starts the next attempt, contradicting
the claim and save_api_key_to_db's own docstring.  Concretely: attempt
1 scrapes successfully, save_api_key_to_db raises, yet the trace of the
run contains the recovery invocation for attempt 1 and the start of
attempt 2. -/
theorem c1_persistence_failure_not_fatal :
    machineResult S1 envOk = Except.ok
      { email := "aaaaaaaa@gmail.com", password := "aaaaaaaaaaaa",
        api_key := "sk-test-key", scraped_at := "2024-01-02 03:04:05" } ∧
    save_api_key_to_db db0
      { email := "aaaaaaaa@gmail.com", password := "aaaaaaaaaaaa",
        api_key := "sk-test-key", scraped_at := "2024-01-02 03:04:05" } dt0
      = Except.error PyErr.typeError ∧
    Ev.recovery 1 ∈ (scrape_keys S1 db0 envsOk 2).1 ∧
    Ev.attemptStart 2 ∈ (scrape_keys S1 db0 envsOk 2).1 := by
  refine ⟨rfl, rfl, ?_, ?_⟩ <;> decide

/-- C2: save_api_key_to_db passes one positional argument where
MongoDBManager.save_api_key requires two (account and scraper_id), so
the call raises a TypeError for every account; consequently no run ever
records a successful persistence, and every attempt whose provisioning
succeeds is routed through the error branch (persistence invoked, then
recovery). -/
theorem c2_persistence_arity_mismatch :
    save_api_key_to_db_argsProvided < save_api_key_requiredPositional ∧
    (∀ (db : KeyDoc → Except PyErr (Option Nat)) (a : Account) (now : DT),
      save_api_key_to_db db a now = Except.error PyErr.typeError) ∧
    (∀ (S : Settings) (db : KeyDoc → Except PyErr (Option Nat))
      (envs : Nat → AttemptEnv) (fuel i j : Nat),
      Ev.persistOk j ∉ (runLoop S db envs fuel i).1) ∧
    (∀ (S : Settings) (db : KeyDoc → Except PyErr (Option Nat)) (env : AttemptEnv)
      (n : Nat) (a : Account),
      env.newPage = Except.ok () → machineResult S env = Except.ok a →
      Ev.persistCall n ∈ (attemptStep S db env n).1 ∧
      Ev.recovery n ∈ (attemptStep S db env n).1) := by
  refine ⟨by decide, fun db a now => rfl,
    fun S db envs fuel i j => runLoop_no_persistOk S db envs fuel i j,
    fun S db env n a hnp hm => ?_⟩
  have h := attemptStep_ok_invoked S db env n a hnp hm
  exact ⟨h.1, h.2.1⟩

/-- C2 witness: a concrete attempt whose provisioning succeeds, where
the persistence call and the recovery invocation both appear in the
attempt trace. -/
theorem c2_witness :
    envOk.newPage = Except.ok () ∧
    machineResult defaultSettings envOk = Except.ok
      { email := "aaaaaaaa@gmail.com", password := "aaaaaaaaaaaa",
        api_key := "sk-test-key", scraped_at := "2024-01-02 03:04:05" } ∧
    Ev.persistCall 1 ∈ (attemptStep defaultSettings db0 envOk 1).1 ∧
    Ev.recovery 1 ∈ (attemptStep defaultSettings db0 envOk 1).1 := by
  have h := c2_persistence_arity_mismatch.2.2.2 defaultSettings db0 envOk 1
    { email := "aaaaaaaa@gmail.com", password := "aaaaaaaaaaaa",
      api_key := "sk-test-key", scraped_at := "2024-01-02 03:04:05" } rfl rfl
  exact ⟨rfl, rfl, h.1, h.2⟩

/-- C3: the state machine returns a credential record only when every
driver step and the extraction succeeded; a raising step at any
position makes the whole attempt return that error and no record; and
an attempt whose machine errored never has its persistence step
invoked in the run loop. -/
theorem c3_no_record_without_all_steps :
    ∀ (S : Settings) (d : Driver) (rEL : Nat) (rEC : Nat → Nat) (rPL : Nat)
      (rPC : Nat → Nat) (now : DT),
    (∀ acct, create_account_and_get_key S d rEL rEC rPL rPC now = Except.ok acct →
      (∀ j (hj : j < (machineOps S rEL rEC rPL rPC).length),
        Driver.run d j ((machineOps S rEL rEC rPL rPC).get ⟨j, hj⟩) = Except.ok ()) ∧
      ∃ k, d.text = Except.ok (some k)) ∧
    (∀ (k : Nat) (e : PyErr) (hk : k < (machineOps S rEL rEC rPL rPC).length),
      (∀ j (hj : j < k),
        Driver.run d j ((machineOps S rEL rEC rPL rPC).get ⟨j, Nat.lt_trans hj hk⟩)
          = Except.ok ()) →
      Driver.run d k ((machineOps S rEL rEC rPL rPC).get ⟨k, hk⟩) = Except.error e →
      create_account_and_get_key S d rEL rEC rPL rPC now = Except.error e) ∧
    (∀ (db : KeyDoc → Except PyErr (Option Nat)) (envs : Nat → AttemptEnv)
      (fuel i n : Nat) (e : PyErr),
      machineResult S (envs n) = Except.error e →
      Ev.persistCall n ∉ (runLoop S db envs fuel i).1) := by
  intro S d rEL rEC rPL rPC now
  refine ⟨?_, ?_, ?_⟩
  · intro acct h
    obtain ⟨htr, htx, _⟩ := create_ok_elim S d rEL rEC rPL rPC now acct h
    constructor
    · intro j hj
      have h2 := runOpsTrace_all_of_none d _ 0 htr j hj
      rw [Nat.zero_add] at h2
      exact h2
    · exact ⟨acct.api_key, htx⟩
  · intro k e hk hb he
    exact (create_err_of_step S d rEL rEC rPL rPC now k e hk hb he).1
  · intro db envs fuel i n e hm
    exact runLoop_no_persistCall_of_err S db envs fuel i n e hm

/-- C3 witness: injecting a timeout at the very first step yields a
failed attempt carrying that error. -/
theorem c3_witness :
    (0 < (machineOps defaultSettings 0 zeroOracle 0 zeroOracle).length) ∧
    create_account_and_get_key defaultSettings drvFail0 0 zeroOracle 0 zeroOracle dt0
      = Except.error (PyErr.pwTimeout (Op.goto (AUTH_URL defaultSettings))) := by
  have hk : 0 < (machineOps defaultSettings 0 zeroOracle 0 zeroOracle).length := by decide
  refine ⟨hk, ?_⟩
  exact (c3_no_record_without_all_steps defaultSettings drvFail0 0 zeroOracle 0
    zeroOracle dt0).2.1 0 (PyErr.pwTimeout (Op.goto (AUTH_URL defaultSettings))) hk
    (fun j hj => absurd hj (Nat.not_lt_zero j)) rfl

/-- C4 counterexample: with every step succeeding and the key text
extraction returning the empty string, the state machine returns a
credential record (no failure) whose api_key field is the empty string,
refuting both that empty extraction is treated as a failure and that
all four fields of a successful record are non-empty. -/
theorem c4_counterexample :
    create_account_and_get_key defaultSettings drvEmptyKey 0 zeroOracle 0 zeroOracle dt0
      = Except.ok { email := "aaaaaaaa@gmail.com", password := "aaaaaaaaaaaa",
                    api_key := "", scraped_at := "2024-01-02 03:04:05" } ∧
    (Account.api_key { email := "aaaaaaaa@gmail.com", password := "aaaaaaaaaaaa",
                       api_key := "", scraped_at := "2024-01-02 03:04:05" }) = "" := by
  exact ⟨rfl, rfl⟩

/-- C4 amended: absent (None) extraction makes the attempt fail (the
api_key slicing raises a TypeError) with no record produced; on every
returned record the email, scraped_at and (under the configured
positive minimum length) password fields are non-empty, and the
api_key field equals exactly the extracted text, which may be the
empty string. -/
theorem c4_amended :
    ∀ (S : Settings) (d : Driver) (rEL : Nat) (rEC : Nat → Nat) (rPL : Nat)
      (rPC : Nat → Nat) (now : DT),
    (d.text = Except.ok none →
      ∃ e, create_account_and_get_key S d rEL rEC rPL rPC now = Except.error e) ∧
    ((runOpsTrace d (machineOps S rEL rEC rPL rPC) 0).2 = none →
      d.text = Except.ok none →
      create_account_and_get_key S d rEL rEC rPL rPC now
        = Except.error PyErr.typeError) ∧
    (∀ acct, create_account_and_get_key S d rEL rEC rPL rPC now = Except.ok acct →
      acct.email ≠ "" ∧ acct.scraped_at ≠ "" ∧
      (1 ≤ S.PASSWORD_MIN_LENGTH → S.PASSWORD_MIN_LENGTH ≤ S.PASSWORD_MAX_LENGTH →
        acct.password ≠ "") ∧
      d.text = Except.ok (some acct.api_key)) := by
  intro S d rEL rEC rPL rPC now
  refine ⟨?_, ?_, ?_⟩
  · intro htx
    cases htr : (runOpsTrace d (machineOps S rEL rEC rPL rPC) 0).2 with
    | some e =>
      refine ⟨e, ?_⟩
      rw [create_eq, htr]
    | none =>
      refine ⟨PyErr.typeError, ?_⟩
      rw [create_eq, htr, htx]
  · intro htr htx
    rw [create_eq, htr, htx]
  · intro acct h
    obtain ⟨htr, htx, hrec⟩ := create_ok_elim S d rEL rEC rPL rPC now acct h
    refine ⟨?_, ?_, ?_, htx⟩
    · rw [hrec]
      exact email_ne_empty S rEL rEC
    · rw [hrec]
      exact strftime_ne_empty now
    · intro h1 h2
      rw [hrec]
      show generate_random_password S rPL rPC ≠ ""
      apply ne_empty_of_len
      have h3 := (generate_random_password_spec S rPL rPC h2).1
      omega

/-- C4 witness: absent extraction on an otherwise all-successful
attempt yields the TypeError failure and no record. -/
theorem c4_witness :
    (runOpsTrace drvNoneKey (machineOps defaultSettings 0 zeroOracle 0 zeroOracle) 0).2
      = none ∧
    drvNoneKey.text = Except.ok none ∧
    create_account_and_get_key defaultSettings drvNoneKey 0 zeroOracle 0 zeroOracle dt0
      = Except.error PyErr.typeError := by
  refine ⟨rfl, rfl, ?_⟩
  exact (c4_amended defaultSettings drvNoneKey 0 zeroOracle 0 zeroOracle dt0).2.1 rfl rfl

/-- C5: for every failed attempt, with rotation enabled and successful
the recovery policy performs only the fixed settle wait and no
countdown tick; with rotation disabled or failed it performs the full
countdown, whose one-second ticks number exactly the configured pause
duration. -/
theorem c5_recovery_policy :
    ∀ (S : Settings) (rot : Bool),
    (S.USE_TOR = true → rot = true →
      handle_error_recovery S rot none = ([REv.settle S.TOR_RENEWAL_WAIT], false) ∧
      REv.tick ∉ (handle_error_recovery S rot none).1) ∧
    ((S.USE_TOR = false ∨ rot = false) →
      handle_error_recovery S rot none
        = (List.replicate S.RATE_LIMIT_PAUSE_DURATION REv.tick, false) ∧
      (handle_error_recovery S rot none).1.length = S.RATE_LIMIT_PAUSE_DURATION) := by
  intro S rot
  constructor
  · intro hU hrot
    subst hrot
    have h := handle_error_recovery_rotation S none hU
    refine ⟨h, ?_⟩
    rw [h]
    simp
  · intro hor
    have h := handle_error_recovery_countdown S rot none hor
    rw [display_countdown_none] at h
    refine ⟨h, ?_⟩
    rw [h]
    simp

/-- C5 witness: both policy branches evaluated at the concrete
configurations. -/
theorem c5_witness :
    (S1.USE_TOR = true ∧
      handle_error_recovery S1 true none = ([REv.settle S1.TOR_RENEWAL_WAIT], false)) ∧
    (defaultSettings.USE_TOR = false ∧
      handle_error_recovery defaultSettings true none
        = (List.replicate defaultSettings.RATE_LIMIT_PAUSE_DURATION REv.tick, false)) := by
  exact ⟨⟨rfl, ((c5_recovery_policy S1 true).1 rfl rfl).1⟩,
    ⟨rfl, ((c5_recovery_policy defaultSettings true).2 (Or.inl rfl)).1⟩⟩

theorem runLoop_start_imp_acquire (S : Settings) (db : KeyDoc → Except PyErr (Option Nat))
    (envs : Nat → AttemptEnv) : ∀ (fuel i m : Nat),
    Ev.attemptStart m ∈ (runLoop S db envs fuel i).1 →
    Ev.acquire m ∈ (runLoop S db envs fuel i).1 := by
  intro fuel
  induction fuel with
  | zero => intro i m h; simp [runLoop] at h
  | succ f ih =>
    intro i m h
    rcases hA : attemptStep S db (envs (i + 1)) (i + 1) with ⟨evs, ores⟩
    have h1 : (attemptStep S db (envs (i + 1)) (i + 1)).1 = evs := by rw [hA]
    cases ores with
    | some r =>
      have hT : runLoop S db envs (f + 1) i = (evs, r) := by rw [runLoop_succ, hA]
      rw [hT] at h ⊢
      have hn : m = i + 1 :=
        attemptStep_mem_idx S db (envs (i + 1)) (i + 1) (Ev.attemptStart m) m rfl
          (by rw [h1]; exact h)
      subst hn
      show Ev.acquire (i + 1) ∈ evs
      rw [← h1]
      exact attemptStep_acquire_mem S db (envs (i + 1)) (i + 1)
    | none =>
      have hT : runLoop S db envs (f + 1) i =
          (evs ++ (runLoop S db envs f (i + 1)).1, (runLoop S db envs f (i + 1)).2) := by
        rw [runLoop_succ, hA]
      rw [hT] at h ⊢
      rcases List.mem_append.mp h with hs | ht
      · have hn : m = i + 1 :=
          attemptStep_mem_idx S db (envs (i + 1)) (i + 1) (Ev.attemptStart m) m rfl
            (by rw [h1]; exact hs)
        subst hn
        apply List.mem_append.mpr
        refine Or.inl ?_
        rw [← h1]
        exact attemptStep_acquire_mem S db (envs (i + 1)) (i + 1)
      · exact List.mem_append.mpr (Or.inr (ih (i + 1) m ht))

/-- C6: in every run, each attempt index acquires its fresh context at
most once and the context of an attempt is never acquired by another
attempt (sessions are indexed by the attempt that created them);
per-attempt release happens at most once; a release always has a
matching acquire; every acquired context belongs to a started attempt;
and every acquired context is torn down — by the per-attempt release in
the finally block or, on the path where the stop signal lands during
page creation, by the browser-level close that immediately follows. -/
theorem c6_session_per_attempt :
    ∀ (S : Settings) (db : KeyDoc → Except PyErr (Option Nat))
      (envs : Nat → AttemptEnv) (fuel i m : Nat),
    ecount (Ev.acquire m) (runLoop S db envs fuel i).1 ≤ 1 ∧
    ecount (Ev.release m) (runLoop S db envs fuel i).1 ≤ 1 ∧
    (Ev.release m ∈ (runLoop S db envs fuel i).1 →
      Ev.acquire m ∈ (runLoop S db envs fuel i).1) ∧
    (Ev.acquire m ∈ (runLoop S db envs fuel i).1 →
      Ev.attemptStart m ∈ (runLoop S db envs fuel i).1) ∧
    (Ev.attemptStart m ∈ (runLoop S db envs fuel i).1 →
      Ev.acquire m ∈ (runLoop S db envs fuel i).1) ∧
    (Ev.acquire m ∈ (runLoop S db envs fuel i).1 →
      Ev.release m ∈ (runLoop S db envs fuel i).1 ∨
        Ev.browserClose ∈ (runLoop S db envs fuel i).1) :=
  fun S db envs fuel i m =>
    ⟨runLoop_count_acquire S db envs fuel i m,
     runLoop_count_release S db envs fuel i m,
     runLoop_release_imp_acquire S db envs fuel i m,
     runLoop_acquire_imp_start S db envs fuel i m,
     runLoop_start_imp_acquire S db envs fuel i m,
     runLoop_acquire_imp_rel_or_close S db envs fuel i m⟩

/-- C6 witness: a concrete one-attempt run in which the acquired
context is released. -/
theorem c6_witness :
    Ev.acquire 1 ∈ (runLoop S1 db0 envsOk 1 0).1 ∧
    (Ev.release 1 ∈ (runLoop S1 db0 envsOk 1 0).1 ∨
      Ev.browserClose ∈ (runLoop S1 db0 envsOk 1 0).1) := by
  have hm : Ev.acquire 1 ∈ (runLoop S1 db0 envsOk 1 0).1 := by decide
  exact ⟨hm, (c6_session_per_attempt S1 db0 envsOk 1 0 1).2.2.2.2.2 hm⟩

/-- C7: for every valid configured range, the generated email is a
username over lowercase letters and digits whose length lies in the
configured inclusive range followed by the fixed domain; the generated
password has length in the configured inclusive range over the
configured character set; and every length in a range is attained by
some draw of the injected random source. -/
theorem c7_generators :
    ∀ (S : Settings) (rLen : Nat) (rChars : Nat → Nat) (rLen2 : Nat) (rChars2 : Nat → Nat),
    (S.EMAIL_USERNAME_MIN_LENGTH ≤ S.EMAIL_USERNAME_MAX_LENGTH →
      ∃ u : String,
        generate_random_email S rLen rChars = u ++ "@gmail.com" ∧
        S.EMAIL_USERNAME_MIN_LENGTH ≤ u.length ∧
        u.length ≤ S.EMAIL_USERNAME_MAX_LENGTH ∧
        ∀ c ∈ u.data, c ∈ (ascii_lowercase ++ string_digits).data) ∧
    (S.PASSWORD_MIN_LENGTH ≤ S.PASSWORD_MAX_LENGTH →
      S.PASSWORD_MIN_LENGTH ≤ (generate_random_password S rLen2 rChars2).length ∧
      (generate_random_password S rLen2 rChars2).length ≤ S.PASSWORD_MAX_LENGTH ∧
      (S.PASSWORD_CHARACTERS.data ≠ [] →
        ∀ c ∈ (generate_random_password S rLen2 rChars2).data,
          c ∈ S.PASSWORD_CHARACTERS.data)) ∧
    (∀ lo hi L : Nat, lo ≤ L → L ≤ hi → ∃ r, randint lo hi r = L) :=
  fun S rLen rChars rLen2 rChars2 =>
    ⟨fun h => generate_random_email_spec S rLen rChars h,
     fun h => generate_random_password_spec S rLen2 rChars2 h,
     fun lo hi L h1 h2 => ⟨L - lo, randint_hits lo hi L h1 h2⟩⟩

/-- C7 witness: the generators evaluated at the concrete configured
ranges of config/settings.py. -/
theorem c7_witness :
    defaultSettings.EMAIL_USERNAME_MIN_LENGTH ≤ defaultSettings.EMAIL_USERNAME_MAX_LENGTH ∧
    (∃ u : String,
      generate_random_email defaultSettings 0 zeroOracle = u ++ "@gmail.com" ∧
      defaultSettings.EMAIL_USERNAME_MIN_LENGTH ≤ u.length ∧
      u.length ≤ defaultSettings.EMAIL_USERNAME_MAX_LENGTH ∧
      ∀ c ∈ u.data, c ∈ (ascii_lowercase ++ string_digits).data) := by
  refine ⟨by decide, ?_⟩
  exact (c7_generators defaultSettings 0 zeroOracle 0 zeroOracle).1 (by decide)

/-- C8: the redirect-confirmation step returns without raising only if
the page address equalled the known post-auth landing address within
the bound; an address that never matches makes the step raise; and a
completed attempt implies the address reached the landing address
during the redirect wait. -/
theorem c8_redirect_confirmation :
    (∀ (urlAt : Nat → String) (target : String) (tmo : Nat),
      wait_for_url urlAt target tmo = Except.ok () →
      ∃ t, t ≤ tmo ∧ urlAt t = target) ∧
    (∀ (urlAt : Nat → String) (target : String) (tmo : Nat),
      (∀ t, t ≤ tmo → urlAt t ≠ target) →
      wait_for_url urlAt target tmo
        = Except.error (PyErr.pwTimeout (Op.waitUrl target tmo))) ∧
    (∀ (S : Settings) (d : Driver) (rEL : Nat) (rEC : Nat → Nat) (rPL : Nat)
      (rPC : Nat → Nat) (now : DT) (acct : Account),
      create_account_and_get_key S d rEL rEC rPL rPC now = Except.ok acct →
      ∃ t, t ≤ S.REDIRECT_TIMEOUT ∧ d.urlAt t = S.BASE_URL ++ "/") := by
  refine ⟨wait_for_url_ok, wait_for_url_timeout, ?_⟩
  intro S d rEL rEC rPL rPC now acct h
  obtain ⟨htr, _, _⟩ := create_ok_elim S d rEL rEC rPL rPC now acct h
  have h5 : 5 < (machineOps S rEL rEC rPL rPC).length := by
    simp [machineOps, stepOps]
  have hok := runOpsTrace_all_of_none d _ 0 htr 5 h5
  rw [Nat.zero_add] at hok
  have hop : (machineOps S rEL rEC rPL rPC).get ⟨5, h5⟩
      = Op.waitUrl (S.BASE_URL ++ "/") S.REDIRECT_TIMEOUT := rfl
  rw [hop] at hok
  exact wait_for_url_ok _ _ _ hok

/-- C8 witness: a trajectory sitting on the landing address passes the
redirect step, and a trajectory that never reaches it fails the step
even though every individual sample returns normally. -/
theorem c8_witness :
    (wait_for_url okUrl "https://bytez.com/" 15000 = Except.ok () ∧
      ∃ t, t ≤ 15000 ∧ okUrl t = "https://bytez.com/") ∧
    ((∀ t, t ≤ 15000 → badUrl t ≠ "https://bytez.com/") ∧
      wait_for_url badUrl "https://bytez.com/" 15000
        = Except.error (PyErr.pwTimeout (Op.waitUrl "https://bytez.com/" 15000))) := by
  have h1 : wait_for_url okUrl "https://bytez.com/" 15000 = Except.ok () := rfl
  have hne : ("https://bytez.com/auth" : String) ≠ "https://bytez.com/" := by decide
  have hcon : ∀ t, t ≤ 15000 → badUrl t ≠ "https://bytez.com/" :=
    fun t ht h => hne h
  exact ⟨⟨h1, c8_redirect_confirmation.1 okUrl "https://bytez.com/" 15000 h1⟩,
    ⟨hcon, c8_redirect_confirmation.2.1 badUrl "https://bytez.com/" 15000 hcon⟩⟩

/-- C9 counterexample: when extraction yields absent content the
machine fails at the ExtractKey state by raising a bare TypeError (the
api_key slicing on None), and that typed failure carries no state name
or context, refuting the claim that every failure carries the failing
state's name or context. -/
theorem c9_counterexample :
    create_account_and_get_key defaultSettings drvNoneKey 0 zeroOracle 0 zeroOracle dt0
      = Except.error PyErr.typeError ∧
    PyErr.stateContext PyErr.typeError = none := ⟨rfl, rfl⟩

/-- C9 amended: when a driver step fails first at position k under a
driver whose failures are Playwright-shaped, the machine raises exactly
that typed failure, which carries the failing operation (the state
context); the issued operation sequence is precisely the prefix ending
at the failing step, so no step is retried and no recovery happens
inside the machine.  The one exception is the absent-extraction
failure, a bare TypeError carrying no state context. -/
theorem c9_typed_failures :
    ∀ (S : Settings) (d : Driver) (rEL : Nat) (rEC : Nat → Nat) (rPL : Nat)
      (rPC : Nat → Nat) (now : DT) (k : Nat) (e : PyErr),
    DriverFaithful d →
    ∀ (hk : k < (machineOps S rEL rEC rPL rPC).length),
    (∀ j (hj : j < k),
      Driver.run d j ((machineOps S rEL rEC rPL rPC).get ⟨j, Nat.lt_trans hj hk⟩)
        = Except.ok ()) →
    Driver.run d k ((machineOps S rEL rEC rPL rPC).get ⟨k, hk⟩) = Except.error e →
    create_account_and_get_key S d rEL rEC rPL rPC now = Except.error e ∧
    (runOpsTrace d (machineOps S rEL rEC rPL rPC) 0).1
      = (machineOps S rEL rEC rPL rPC).take (k + 1) ∧
    PyErr.stateContext e = some ((machineOps S rEL rEC rPL rPC).get ⟨k, hk⟩) := by
  intro S d rEL rEC rPL rPC now k e hf hk hb he
  have hstep := create_err_of_step S d rEL rEC rPL rPC now k e hk hb he
  exact ⟨hstep.1, hstep.2, run_err_context d hf k _ e he⟩

/-- C9 witness: a timeout injected at the wait for the email field
propagates as the machine's result, carries that operation as context,
and the issued operations are exactly the first two steps. -/
theorem c9_witness :
    DriverFaithful drvFailAt1 ∧
    create_account_and_get_key defaultSettings drvFailAt1 0 zeroOracle 0 zeroOracle dt0
      = Except.error (PyErr.pwTimeout (Op.waitSelector
          defaultSettings.selectors.email_field defaultSettings.ELEMENT_TIMEOUT)) ∧
    PyErr.stateContext (PyErr.pwTimeout (Op.waitSelector
        defaultSettings.selectors.email_field defaultSettings.ELEMENT_TIMEOUT))
      = some (Op.waitSelector defaultSettings.selectors.email_field
          defaultSettings.ELEMENT_TIMEOUT) := by
  have hf : DriverFaithful drvFailAt1 := by
    intro i op e h
    have h2 : (if i = 1 then Except.error (PyErr.pwTimeout op) else Except.ok ())
        = Except.error e := h
    split at h2
    · injection h2 with h3
      exact Or.inl h3.symm
    · exact absurd h2 (by simp)
  have hk : 1 < (machineOps defaultSettings 0 zeroOracle 0 zeroOracle).length := by decide
  have happ := c9_typed_failures defaultSettings drvFailAt1 0 zeroOracle 0 zeroOracle dt0 1
    (PyErr.pwTimeout (Op.waitSelector defaultSettings.selectors.email_field
      defaultSettings.ELEMENT_TIMEOUT)) hf hk
    (fun j hj => by
      have hj0 : j = 0 := Nat.lt_one_iff.mp hj
      subst hj0
      rfl)
    rfl
  exact ⟨hf, happ.1, happ.2.2⟩

/-- C10: a stop signal delivered at a tick of the recovery countdown of
a started attempt ends the run as stopped, no later attempt ever
starts, no record is ever persisted, and the stopping attempt's
context is released exactly once on the way out. -/
theorem c10_stop_mid_countdown :
    ∀ (S : Settings) (db : KeyDoc → Except PyErr (Option Nat))
      (envs : Nat → AttemptEnv) (fuel i n t : Nat),
    (envs n).newPage = Except.ok () →
    machineResult S (envs n) ≠ Except.error PyErr.keyboardInterrupt →
    (S.USE_TOR = false ∨ (envs n).rotationOk = false) →
    (envs n).stopTick = some t →
    t < S.RATE_LIMIT_PAUSE_DURATION →
    Ev.attemptStart n ∈ (runLoop S db envs fuel i).1 →
    (runLoop S db envs fuel i).2 = RunEnd.stopped ∧
    Ev.attemptStart (n + 1) ∉ (runLoop S db envs fuel i).1 ∧
    ecount (Ev.release n) (runLoop S db envs fuel i).1 = 1 ∧
    (∀ j, Ev.persistOk j ∉ (runLoop S db envs fuel i).1) := by
  intro S db envs fuel i n t h1 h2 h3 h4 h5 h6
  have h := runLoop_stop_mid S db envs fuel i n t h1 h2 h3 h4 h5 h6
  exact ⟨h.1, h.2.1, h.2.2, fun j => runLoop_no_persistOk S db envs fuel i j⟩

/-- C10 witness: a concrete run whose first attempt fails, enters the
countdown and is stopped at its third tick: the run ends stopped, no
second attempt starts, nothing is persisted, and the context of
attempt one is released exactly once. -/
theorem c10_witness :
    (envsStop 1).newPage = Except.ok () ∧
    (envsStop 1).stopTick = some 3 ∧
    Ev.attemptStart 1 ∈ (runLoop defaultSettings db0 envsStop 2 0).1 ∧
    ((runLoop defaultSettings db0 envsStop 2 0).2 = RunEnd.stopped ∧
     Ev.attemptStart 2 ∉ (runLoop defaultSettings db0 envsStop 2 0).1 ∧
     ecount (Ev.release 1) (runLoop defaultSettings db0 envsStop 2 0).1 = 1 ∧
     (∀ j, Ev.persistOk j ∉ (runLoop defaultSettings db0 envsStop 2 0).1)) := by
  have hkb : machineResult defaultSettings (envsStop 1)
      ≠ Except.error PyErr.keyboardInterrupt := by
    intro hcon
    rw [show machineResult defaultSettings (envsStop 1)
        = Except.error (PyErr.pwTimeout (Op.goto (AUTH_URL defaultSettings))) from rfl]
      at hcon
    injection hcon with h3
    exact PyErr.noConfusion h3
  have hmem : Ev.attemptStart 1 ∈ (runLoop defaultSettings db0 envsStop 2 0).1 := by decide
  exact ⟨rfl, rfl, hmem,
    c10_stop_mid_countdown defaultSettings db0 envsStop 2 0 1 3 rfl hkb (Or.inl rfl) rfl
      (by decide) hmem⟩
